import Mathlib

/-!
Verification of the 3D transform-gizmo interaction subsystem of the
`simple_3d_graphics_engine` repository.

The embedding follows the source files:
  * `src/systems/gizmo_3d_system/gizmo_3d_system.py` (the interaction state machine),
  * `src/utilities/utils_camera.py` (pixel-to-NDC conversion, gizmo screen scale),
  * `src3/math_3d.py` (ray/segment distance math),
  * `src/components/transform_3d.py`, `ecs/components/camera.py` (component records),
  * `src/core/constants.py` (constants).

Machine floats are modelled as exact rationals.  Pieces of the repository that
are referenced but absent from the source tree (`src.math.ray_intersection`,
`src.math.mat4`, a handful of `GIZMO_3D_*` constants, the camera's stored
inverse projection matrix, and the irrational vector normalisation inside the
pixel-to-ray conversion) are modelled from the specification; each such
definition carries a doc comment starting with `Modelled from the spec:`.
Python `KeyError`/`TypeError`/`AttributeError` hazards of dictionary and
attribute dereferences are modelled with `Option`, where `none` is a raised
exception.
-/

/-- A 3-component vector of exact rationals (numpy `float32` 3-vectors in the source). -/
structure Vec3 where
  x : ℚ
  y : ℚ
  z : ℚ
deriving DecidableEq, Repr

/-- Component-wise vector addition. -/
def Vec3.add (a b : Vec3) : Vec3 := ⟨a.x + b.x, a.y + b.y, a.z + b.z⟩

/-- Component-wise vector subtraction. -/
def Vec3.sub (a b : Vec3) : Vec3 := ⟨a.x - b.x, a.y - b.y, a.z - b.z⟩

/-- Scalar multiplication of a vector. -/
def Vec3.smul (c : ℚ) (v : Vec3) : Vec3 := ⟨c * v.x, c * v.y, c * v.z⟩

instance : Add Vec3 := ⟨Vec3.add⟩

instance : Sub Vec3 := ⟨Vec3.sub⟩

instance : SMul ℚ Vec3 := ⟨Vec3.smul⟩

/-- Dot product. -/
def Vec3.dot (a b : Vec3) : ℚ := a.x * b.x + a.y * b.y + a.z * b.z

/-- Squared euclidean length (`glm.length2`). -/
def Vec3.length2 (a : Vec3) : ℚ := Vec3.dot a a

/-- A 4x4 matrix of exact rationals, written out entry by entry
(`m03` is row 0, column 3). -/
structure Mat4 where
  m00 : ℚ
  m01 : ℚ
  m02 : ℚ
  m03 : ℚ
  m10 : ℚ
  m11 : ℚ
  m12 : ℚ
  m13 : ℚ
  m20 : ℚ
  m21 : ℚ
  m22 : ℚ
  m23 : ℚ
  m30 : ℚ
  m31 : ℚ
  m32 : ℚ
  m33 : ℚ
deriving DecidableEq, Repr

/-- The identity matrix (`np.eye(4)`). -/
def Mat4.identity : Mat4 := ⟨1,0,0,0, 0,1,0,0, 0,0,1,0, 0,0,0,1⟩

/-- Modelled from the spec: `src.math.mat4.mul_vector3` is not under `src/`.
Applies the matrix to a 3-vector as a point (homogeneous `w = 1`), returning
the first three components, per §4.1's mat4 transforms of points. -/
def Mat4.mulVector3 (m : Mat4) (v : Vec3) : Vec3 :=
  ⟨m.m00 * v.x + m.m01 * v.y + m.m02 * v.z + m.m03,
   m.m10 * v.x + m.m11 * v.y + m.m12 * v.z + m.m13,
   m.m20 * v.x + m.m21 * v.y + m.m22 * v.z + m.m23⟩

/-- Applies the matrix to a homogeneous 4-vector (`np.dot(mat, vec4)`). -/
def Mat4.mulVec4 (m : Mat4) (v : ℚ × ℚ × ℚ × ℚ) : ℚ × ℚ × ℚ × ℚ :=
  (m.m00 * v.1 + m.m01 * v.2.1 + m.m02 * v.2.2.1 + m.m03 * v.2.2.2,
   m.m10 * v.1 + m.m11 * v.2.1 + m.m12 * v.2.2.1 + m.m13 * v.2.2.2,
   m.m20 * v.1 + m.m21 * v.2.1 + m.m22 * v.2.2.1 + m.m23 * v.2.2.2,
   m.m30 * v.1 + m.m31 * v.2.1 + m.m32 * v.2.2.1 + m.m33 * v.2.2.2)

/-- The translation column `matrix[:3, 3]`. -/
def Mat4.translation (m : Mat4) : Vec3 := ⟨m.m03, m.m13, m.m23⟩

/-- Column extraction `matrix[:3, i]` with Python/numpy index semantics:
a negative index `i` addresses column `i + 4`, and an index outside `[-4, 3]`
is an `IndexError` (modelled by the zero vector; the system never produces
such an index). -/
def Mat4.colPy (m : Mat4) (i : Int) : Vec3 :=
  let j : Int := if i < 0 then i + 4 else i
  if j = 0 then ⟨m.m00, m.m10, m.m20⟩
  else if j = 1 then ⟨m.m01, m.m11, m.m21⟩
  else if j = 2 then ⟨m.m02, m.m12, m.m22⟩
  else if j = 3 then ⟨m.m03, m.m13, m.m23⟩
  else ⟨0, 0, 0⟩

/-- Modelled from the spec: `src.math.mat4.fast_inverse` is not under `src/`.
Inverse of a rigid parent world matrix (rotation plus translation, per the
spec's world-matrix invariant in §3): transposed rotation block and
counter-rotated negated translation. -/
def Mat4.fastInverse (m : Mat4) : Mat4 :=
  ⟨m.m00, m.m10, m.m20, -(m.m00 * m.m03 + m.m10 * m.m13 + m.m20 * m.m23),
   m.m01, m.m11, m.m21, -(m.m01 * m.m03 + m.m11 * m.m13 + m.m21 * m.m23),
   m.m02, m.m12, m.m22, -(m.m02 * m.m03 + m.m12 * m.m13 + m.m22 * m.m23),
   0, 0, 0, 1⟩

/-- Modelled from the spec: `src.math.mat4.even_faster_inverse` is not under
`src/`.  Used on camera world matrices to obtain the view matrix; same rigid
inverse as `Mat4.fastInverse`. -/
def Mat4.evenFasterInverse (m : Mat4) : Mat4 := Mat4.fastInverse m

/-- Modelled from the spec: `src.math.mat4.mul_vectors3` is not under `src/`.
Transforms each of the three points of the input array by the matrix, as used
to place the gizmo axis end points in world space. -/
def Mat4.mulVectors3 (m : Mat4) (vs : Fin 3 → Vec3) : Fin 3 → Vec3 :=
  fun i => m.mulVector3 (vs i)

/-!  Camera utilities, from `src/utilities/utils_camera.py`. -/

/-- Modelled from the spec: the constant `GIZMO_3D_ANGLE_TANGENT_COEFFICIENT`
is absent from `src/core/constants.py`.  Per §4.2 it is a positive tunable,
`tan(fixed_half_angle)`; the value chosen here is one such tunable. -/
def GIZMO_3D_ANGLE_TANGENT_COEFFICIENT : ℚ := 1 / 10

/-- Modelled from the spec: the constant `GIZMO_3D_VIEWPORT_SCALE_COEFFICIENT`
is absent from `src/core/constants.py`.  Per §4.2 it is a positive tunable
target pixel size. -/
def GIZMO_3D_VIEWPORT_SCALE_COEFFICIENT : ℚ := 800

/-- `utils_camera.set_gizmo_scale`: the object's view-space depth magnitude
times the tangent coefficient. -/
def set_gizmo_scale (view_matrix : Mat4) (object_position : Vec3) : ℚ :=
  let view_position := view_matrix.mulVector3 object_position
  |view_position.z| * GIZMO_3D_ANGLE_TANGENT_COEFFICIENT

/-- `utils_camera.screen_gl_position_pixels2viewport_position`: converts a
pixel position (OpenGL convention) to viewport coordinates in `[-1, 1]²`,
or `None` when the pixel is outside the viewport rectangle
`(x, y, width, height)`. -/
def screen_gl_position_pixels2viewport_position
    (position_pixels : ℚ × ℚ) (viewport_pixels : ℚ × ℚ × ℚ × ℚ) :
    Option (ℚ × ℚ) :=
  let (vx, vy, vw, vh) := viewport_pixels
  if position_pixels.1 < vx then none
  else if position_pixels.1 > vx + vw then none
  else if position_pixels.2 < vy then none
  else if position_pixels.2 > vy + vh then none
  else
    let x_normalised := (position_pixels.1 - vx) / vw
    let y_normalised := (position_pixels.2 - vy) / vh
    some ((x_normalised - 1/2) * 2, (y_normalised - 1/2) * 2)

/-- `utils_camera.screen_pos2world_ray`: builds the clip-space point
`(ndc.x, ndc.y, -1, 1)`, applies the inverse projection, forces eye-space
`z = -1, w = 0`, applies the camera world matrix and returns
`(ray_direction, ray_origin)` — in that order, as in the source.
`normalize3` stands for `v / np.linalg.norm(v)`, which is irrational over ℚ
and is therefore passed in as a parameter (Modelled from the spec). -/
def screen_pos2world_ray (normalize3 : Vec3 → Vec3)
    (viewport_coord_norm : ℚ × ℚ)
    (camera_matrix : Mat4) (inverse_projection_matrix : Mat4) :
    Vec3 × Vec3 :=
  let clip_coordinates := (viewport_coord_norm.1, viewport_coord_norm.2, (-1 : ℚ), (1 : ℚ))
  let eye_coordinates := inverse_projection_matrix.mulVec4 clip_coordinates
  let eye_coordinates := (eye_coordinates.1, eye_coordinates.2.1, (-1 : ℚ), (0 : ℚ))
  let world_coordinates := camera_matrix.mulVec4 eye_coordinates
  let ray_origin := camera_matrix.translation
  let ray_direction :=
    normalize3 ⟨world_coordinates.1, world_coordinates.2.1, world_coordinates.2.2.1⟩
  (ray_direction, ray_origin)

/-!  Ray math, from `src3/math_3d.py`. -/

/-- `glm.epsilon()` for `float32`: `2^-23`. -/
def glmEpsilon : ℚ := 1 / 8388608

/-- `math_3d.nearest_point_on_segment`: the point of the segment `[p0, p1]`
nearest to the ray, together with the ray parameter `tr` at the closest
approach. -/
def nearest_point_on_segment (ray_origin ray_direction p0 p1 : Vec3) :
    Vec3 × ℚ :=
  let ldir := p1 - p0
  let p := p0 - ray_origin
  let q := Vec3.length2 ldir
  let r := Vec3.dot ldir ray_direction
  let s := Vec3.dot ldir p
  let t := Vec3.dot ray_direction p
  let denom := q - r * r
  let sn0 := r * t - s
  let tn0 := q * t - r * s
  let sn := if denom < glmEpsilon then (0 : ℚ)
    else if sn0 < 0 then 0 else if sn0 > denom then denom else sn0
  let sd := if denom < glmEpsilon then (1 : ℚ) else denom
  let tn := if denom < glmEpsilon then t
    else if sn0 < 0 then t else if sn0 > denom then t + r else tn0
  let td := if denom < glmEpsilon then (1 : ℚ)
    else if sn0 < 0 then 1 else if sn0 > denom then 1 else denom
  let tr := if tn < 0 then (0 : ℚ) else tn / td
  let ts := if tn < 0 then (if r ≥ 0 then (0 : ℚ) else if s ≤ q then 1 else -s / q)
    else sn / sd
  (p0 + ts • ldir, tr)

/-- `math_3d.distance2_ray_segment`: squared shortest distance between the
ray and the segment. -/
def distance2_ray_segment (ray_origin ray_direction p0 p1 : Vec3) : ℚ :=
  let nearest := nearest_point_on_segment ray_origin ray_direction p0 p1
  let p := ray_origin + nearest.2 • ray_direction
  Vec3.length2 (p - nearest.1)

/-- Modelled from the spec: `src.math.ray_intersection.intersect_ray_capsules`
is not under `src/`.  Per §4.1 and the call site, for each of the three axis
capsules it writes the ray parameter of the closest approach when the squared
ray-segment distance is below `radius²`, and `-1` otherwise (the caller keeps
the entries `> -1` and takes the argmin). -/
def intersect_ray_capsules (ray_origin ray_direction : Vec3)
    (points_a points_b : Fin 3 → Vec3) (radius : ℚ) : Fin 3 → ℚ :=
  fun i =>
    if distance2_ray_segment ray_origin ray_direction (points_a i) (points_b i)
        < radius * radius then
      (nearest_point_on_segment ray_origin ray_direction (points_a i) (points_b i)).2
    else -1

/-- Modelled from the spec: `src.math.ray_intersection.ray2ray_nearest_point_on_ray_0`
is not under `src/`.  Per §4.1: the closest point on ray 0 to ray 1 by the
standard two-line closest-point formula, falling back to projecting ray 1's
origin onto ray 0 when the denominator is below `1e-6`. -/
def ray2ray_nearest_point_on_ray_0 (ray_0_origin ray_0_direction
    ray_1_origin ray_1_direction : Vec3) : Vec3 :=
  let r := ray_1_origin - ray_0_origin
  let a := Vec3.dot ray_0_direction ray_0_direction
  let b := Vec3.dot ray_0_direction ray_1_direction
  let c := Vec3.dot ray_1_direction ray_1_direction
  let denom := a * c - b * b
  if denom < 1 / 1000000 then
    ray_0_origin + (Vec3.dot ray_0_direction r / a) • ray_0_direction
  else
    ray_0_origin + ((Vec3.dot ray_0_direction r * c - Vec3.dot ray_1_direction r * b) / denom) • ray_0_direction

/-!  Component records and the scene, from `src/components/transform_3d.py`,
`ecs/components/camera.py` and the gizmo blueprint. -/

/-- Entity identifiers. -/
abbrev UID := Nat

/-- `Transform3D` component (`src/components/transform_3d.py`).  The gizmo
system writes 3-tuples into `scale`, so it is modelled as a vector. -/
structure Transform3D where
  position : Vec3
  rotation : Vec3
  scale : Vec3
  local_matrix : Mat4
  world_matrix : Mat4
  input_values_updated : Bool
deriving DecidableEq, Repr

/-- The part of an entity record the gizmo system reads (`scene.get_entity`). -/
structure EntityRec where
  parent_uid : Option UID
deriving DecidableEq, Repr

/-- `Camera` component (`ecs/components/camera.py`): the viewport rectangle in
pixels (`None` before the first window-resize) and the stored inverse
projection matrix.  Modelled from the spec: `get_inverse_projection_matrix`
involves an irrational tangent, so the inverse projection is carried as
component data. -/
structure CameraComp where
  viewport_pixels : Option (ℚ × ℚ × ℚ × ℚ)
  inverse_projection_matrix : Mat4
deriving DecidableEq, Repr

/-- `Camera.is_inside_viewport` (`ecs/components/camera.py`): `False` when no
viewport is set, otherwise bounds checks against elements 0..3 of the
viewport tuple. -/
def is_inside_viewport (cam : CameraComp) (coord_pixels : ℚ × ℚ) : Bool :=
  match cam.viewport_pixels with
  | none => false
  | some (v0, v1, v2, v3) =>
      decide (v0 ≤ coord_pixels.1 ∧ coord_pixels.1 ≤ v2) &&
      decide (v1 ≤ coord_pixels.2 ∧ coord_pixels.2 ≤ v3)

/-- `Gizmo3D` component: the three axis handle sub-entities. -/
structure Gizmo3DComp where
  axes_entities_uids : Fin 3 → UID
deriving Repr

/-- `Material` component: only the highlight flag is touched by this system. -/
structure MaterialComp where
  state_highlighted : Bool
deriving DecidableEq, Repr

/-- `Mesh` component: only the visibility flag is touched by this system. -/
structure MeshComp where
  visible : Bool
deriving DecidableEq, Repr

/-- The scene as seen by the gizmo system: the component pools it dereferences
(a `none` lookup is a Python `KeyError`), the camera pool in registration
order, and the camera-to-gizmo-rig association built during initialisation. -/
structure Scene where
  transforms : UID → Option Transform3D
  entities : UID → Option EntityRec
  cameras : List (UID × CameraComp)
  camera2gizmo : UID → UID
  gizmos : UID → Option Gizmo3DComp
  materials : UID → Option MaterialComp
  meshes : UID → Option MeshComp

/-- Writes one transform component back into the pool. -/
def Scene.setTransform (s : Scene) (uid : UID) (t : Transform3D) : Scene :=
  { s with transforms := fun u => if u = uid then some t else s.transforms u }

/-- Writes one material component back into the pool. -/
def Scene.setMaterial (s : Scene) (uid : UID) (m : MaterialComp) : Scene :=
  { s with materials := fun u => if u = uid then some m else s.materials u }

/-- Writes one mesh component back into the pool. -/
def Scene.setMesh (s : Scene) (uid : UID) (m : MeshComp) : Scene :=
  { s with meshes := fun u => if u = uid then some m else s.meshes u }

/-!  The gizmo interaction state machine, from
`src/systems/gizmo_3d_system/gizmo_3d_system.py`. -/

/-- Modelled from the spec: the `GIZMO_3D_STATE_*` constants are absent from
`src/core/constants.py`; the six states are those keyed by `state_handlers`. -/
inductive GizmoState
  | notHovering
  | hoveringAxis
  | hoveringPlane
  | translatingOnAxis
  | translatingOnPlane
  | rotateAroundAxis
deriving DecidableEq, Repr

/-- Modelled from the spec: the `GIZMO_3D_ORIENTATION_*` constants are absent
from `src/core/constants.py`; §3 gives the two orientations. -/
inductive GizmoOrientation
  | global'
  | local'
deriving DecidableEq, Repr

/-- Modelled from the spec: the constant `GIZMO_3D_PLANE_CAMERA` is absent
from `src/core/constants.py`; any value distinct from the plane indices
`-1, 0, 1, 2` serves. -/
def GIZMO_3D_PLANE_CAMERA : Int := 3

/-- `constants.MOUSE_LEFT`. -/
def MOUSE_LEFT : Int := 0

/-- `constants.GIZMO_3D_AXES`: the unit axis end points. -/
def GIZMO_3D_AXES : Fin 3 → Vec3 :=
  fun i => if i = 0 then ⟨1, 0, 0⟩ else if i = 1 then ⟨0, 1, 0⟩ else ⟨0, 0, 1⟩

/-- The mutable fields of `Gizmo3DSystem` that the modelled handlers touch
(initial values as in `__init__`). -/
structure Gizmo3DSystem where
  selected_entity_uid : Option UID
  local_axis_offset_point : Vec3
  original_active_local_position : Option Vec3
  original_active_local_matrix : Option Mat4
  original_active_world_matrix : Option Mat4
  gizmo_orientation : GizmoOrientation
  gizmo_selection_enabled : Bool
  gizmo_world_matrix : Mat4
  gizmo_transformed_axes : Fin 3 → Vec3
  focused_gizmo_axis_index : Int
  focused_gizmo_plane : Int
  focused_camera_uid : Option UID
  gizmo_state : GizmoState
  mouse_screen_position : ℚ × ℚ

/-- `Gizmo3DSystem.mouse_ray_check_axes_collision`: capsule-tests the ray
against the three axis segments of the focused camera's rig and returns `-1`
when no axis passes, otherwise the index of the passing axis whose intersection
entry (the ray parameter of the closest approach) is smallest, first index
winning ties as in `np.argmin`. -/
def mouse_ray_check_axes_collision (sys : Gizmo3DSystem) (scene : Scene)
    (ray_origin ray_direction : Vec3) : Option Int := do
  let focused_cam ← sys.focused_camera_uid
  let gizmo_3d_entity_uid := scene.camera2gizmo focused_cam
  let gizmo_transform_component ← scene.transforms gizmo_3d_entity_uid
  let points_a : Fin 3 → Vec3 := fun _ => gizmo_transform_component.position
  let intersection_distances :=
    intersect_ray_capsules ray_origin ray_direction points_a
      sys.gizmo_transformed_axes (1/10 * gizmo_transform_component.scale.x)
  let valid_axis_indices :=
    (List.finRange 3).filter (fun i => decide (-1 < intersection_distances i))
  match valid_axis_indices with
  | [] => pure (-1)
  | v :: vs =>
      pure ((vs.foldl (fun best i =>
        if intersection_distances i < intersection_distances best then i else best) v).val)

/-- `Gizmo3DSystem.get_projected_point_on_axis`: projects the mouse ray onto
the focused axis through the snapshotted world origin (axis direction from the
live `gizmo_orientation`: gizmo world matrix column for global, snapshotted
world matrix column for local), then maps the world point into the selected
entity's parent-local space. -/
def get_projected_point_on_axis (sys : Gizmo3DSystem) (scene : Scene)
    (ray_origin ray_direction : Vec3) : Option Vec3 := do
  let owm ← sys.original_active_world_matrix
  let axis_origin := owm.translation
  let axis_direction :=
    match sys.gizmo_orientation with
    | .global' => sys.gizmo_world_matrix.colPy sys.focused_gizmo_axis_index
    | .local' => owm.colPy sys.focused_gizmo_axis_index
  let world_point_on_ray_0 :=
    ray2ray_nearest_point_on_ray_0 axis_origin axis_direction ray_origin ray_direction
  let sel_uid ← sys.selected_entity_uid
  let entity ← scene.entities sel_uid
  let inverse_parent_matrix ←
    match entity.parent_uid with
    | none => pure Mat4.identity
    | some p => do
        let parent_t ← scene.transforms p
        pure (Mat4.fastInverse parent_t.world_matrix)
  pure (inverse_parent_matrix.mulVector3 world_point_on_ray_0)

/-- `handle_state_not_hovering`: hit-test the axes; on a hit, move to
`HOVERING_AXIS` (the `mouse_enter_gizmo` event goes to external listeners). -/
def handle_state_not_hovering (sys : Gizmo3DSystem) (scene : Scene)
    (ray_origin ray_direction : Vec3) (mouse_press : Bool) :
    Option (Gizmo3DSystem × Scene) := do
  let idx ← mouse_ray_check_axes_collision sys scene ray_origin ray_direction
  let sys := { sys with focused_gizmo_axis_index := idx }
  if idx = -1 then pure (sys, scene)
  else pure ({ sys with gizmo_state := .hoveringAxis }, scene)

/-- `handle_state_hovering_axis`: on press, snapshot the selected entity's
transform, compute the local axis offset point and enter
`TRANSLATING_ON_AXIS`; otherwise re-run the hit test and fall back to
`NOT_HOVERING` when no axis is hit. -/
def handle_state_hovering_axis (sys : Gizmo3DSystem) (scene : Scene)
    (ray_origin ray_direction : Vec3) (mouse_press : Bool) :
    Option (Gizmo3DSystem × Scene) := do
  if !sys.gizmo_selection_enabled then pure (sys, scene)
  else if mouse_press then do
    let sys := { sys with gizmo_state := .translatingOnAxis }
    let sel_uid ← sys.selected_entity_uid
    let transform ← scene.transforms sel_uid
    let sys := { sys with
      original_active_local_position := some transform.position
      original_active_world_matrix := some transform.world_matrix
      original_active_local_matrix := some transform.local_matrix }
    let offset ← get_projected_point_on_axis sys scene ray_origin ray_direction
    pure ({ sys with local_axis_offset_point := offset }, scene)
  else do
    let idx ← mouse_ray_check_axes_collision sys scene ray_origin ray_direction
    let sys := { sys with focused_gizmo_axis_index := idx }
    if idx = -1 then pure ({ sys with gizmo_state := .notHovering }, scene)
    else pure (sys, scene)

/-- `handle_state_hovering_plane`: `pass`. -/
def handle_state_hovering_plane (sys : Gizmo3DSystem) (scene : Scene)
    (ray_origin ray_direction : Vec3) (mouse_press : Bool) :
    Option (Gizmo3DSystem × Scene) :=
  pure (sys, scene)

/-- `handle_state_translate_on_axis`: project the ray onto the snapshotted
axis, write `projected - local_axis_offset_point + original_active_local_position`
into the selected entity's position, and mark its input values updated. -/
def handle_state_translate_on_axis (sys : Gizmo3DSystem) (scene : Scene)
    (ray_origin ray_direction : Vec3) (mouse_press : Bool) :
    Option (Gizmo3DSystem × Scene) := do
  let local_point_on_ray_0 ← get_projected_point_on_axis sys scene ray_origin ray_direction
  let orig_pos ← sys.original_active_local_position
  let new_local_position := local_point_on_ray_0 - sys.local_axis_offset_point + orig_pos
  let sel_uid ← sys.selected_entity_uid
  let selected_transform_component ← scene.transforms sel_uid
  pure (sys, scene.setTransform sel_uid
    { selected_transform_component with
      position := new_local_position
      input_values_updated := true })

/-- `handle_state_translate_on_plane`: the camera-plane branch is `pass`. -/
def handle_state_translate_on_plane (sys : Gizmo3DSystem) (scene : Scene)
    (ray_origin ray_direction : Vec3) (mouse_press : Bool) :
    Option (Gizmo3DSystem × Scene) :=
  pure (sys, scene)

/-- The `state_handlers` dispatch of `handle_event_mouse_move` /
`handle_event_mouse_button_press`:
`self.state_handlers[self.gizmo_state](ray_origin=…, ray_direction=…, mouse_press=…)`.
`handle_state_rotate_axis` is declared with the unrelated signature
`(screen_gl_pixels, entering_state)`, so the keyword call raises a Python
`TypeError`: modelled as `none`. -/
def dispatch_state_handler (sys : Gizmo3DSystem) (scene : Scene)
    (ray_origin ray_direction : Vec3) (mouse_press : Bool) :
    Option (Gizmo3DSystem × Scene) :=
  match sys.gizmo_state with
  | .notHovering => handle_state_not_hovering sys scene ray_origin ray_direction mouse_press
  | .hoveringAxis => handle_state_hovering_axis sys scene ray_origin ray_direction mouse_press
  | .hoveringPlane => handle_state_hovering_plane sys scene ray_origin ray_direction mouse_press
  | .translatingOnAxis => handle_state_translate_on_axis sys scene ray_origin ray_direction mouse_press
  | .translatingOnPlane => handle_state_translate_on_plane sys scene ray_origin ray_direction mouse_press
  | .rotateAroundAxis => none

/-- `Gizmo3DSystem.get_active_camera`: scans the camera pool in registration
order and keeps overwriting the result with every camera whose viewport
contains the pixel; returns `None, None` when no viewport contains it. -/
def get_active_camera (scene : Scene) (screen_gl_pixels : ℚ × ℚ) :
    Option (UID × CameraComp) :=
  scene.cameras.foldl
    (fun acc c => if is_inside_viewport c.2 screen_gl_pixels then some c else acc)
    none

/-- `Gizmo3DSystem.get_mouse_ray_point_on_axis`: refreshes the transformed
gizmo axes from the rig's world matrix, converts the *stored* mouse position
to viewport coordinates (`(None, None)` when outside), and builds the world
ray through the camera. -/
def get_mouse_ray_point_on_axis (normalize3 : Vec3 → Vec3)
    (sys : Gizmo3DSystem) (scene : Scene)
    (active_camera_uid : UID) (active_camera_component : CameraComp) :
    Option (Gizmo3DSystem × Option (Vec3 × Vec3)) := do
  let gizmo_3d_entity_uid := scene.camera2gizmo active_camera_uid
  let gizmo_transform_component ← scene.transforms gizmo_3d_entity_uid
  let sys := { sys with
    gizmo_transformed_axes :=
      Mat4.mulVectors3 gizmo_transform_component.world_matrix GIZMO_3D_AXES }
  let camera_t ← scene.transforms active_camera_uid
  let viewport ← active_camera_component.viewport_pixels
  match screen_gl_position_pixels2viewport_position sys.mouse_screen_position viewport with
  | none => pure (sys, none)
  | some viewport_position =>
      let ray := screen_pos2world_ray normalize3 viewport_position
        camera_t.world_matrix active_camera_component.inverse_projection_matrix
      pure (sys, some (ray.2, ray.1))

/-- `Gizmo3DSystem.screen2ray`: resolves the camera owning the pixel and, when
found, the world-space mouse ray; `(None, None, None)` when no camera owns the
pixel. -/
def screen2ray (normalize3 : Vec3 → Vec3) (sys : Gizmo3DSystem) (scene : Scene)
    (screen_gl_pixels : ℚ × ℚ) :
    Option (Gizmo3DSystem × (Option (Vec3 × Vec3) × Option UID)) := do
  match get_active_camera scene screen_gl_pixels with
  | none => pure (sys, (none, none))
  | some (active_camera_uid, active_camera_component) => do
      let res ← get_mouse_ray_point_on_axis normalize3 sys scene
        active_camera_uid active_camera_component
      pure (res.1, (res.2, some active_camera_uid))

/-- `handle_event_mouse_move`: store the mouse position, ignore the event when
nothing is selected, resolve camera and ray, and dispatch to the current
state's handler with `mouse_press=False`. -/
def handle_event_mouse_move (normalize3 : Vec3 → Vec3)
    (sys : Gizmo3DSystem) (scene : Scene) (event_data : ℚ × ℚ) :
    Option (Gizmo3DSystem × Scene) := do
  let sys := { sys with mouse_screen_position := event_data }
  match sys.selected_entity_uid with
  | none => pure (sys, scene)
  | some _ => do
      let res ← screen2ray normalize3 sys scene event_data
      let sys := { res.1 with focused_camera_uid := res.2.2 }
      match res.2.2 with
      | none => pure (sys, scene)
      | some _ =>
          match res.2.1 with
          | none => pure (sys, scene)
          | some (ray_origin, ray_direction) =>
              dispatch_state_handler sys scene ray_origin ray_direction false

/-- `handle_event_mouse_button_press`: left button only, ignore when nothing
is selected, resolve camera and ray (from the stored mouse position), and
dispatch with `mouse_press=True`. -/
def handle_event_mouse_button_press (normalize3 : Vec3 → Vec3)
    (sys : Gizmo3DSystem) (scene : Scene) (button : Int) (screen_gl_pixels : ℚ × ℚ) :
    Option (Gizmo3DSystem × Scene) := do
  if button ≠ MOUSE_LEFT then pure (sys, scene)
  else match sys.selected_entity_uid with
  | none => pure (sys, scene)
  | some _ => do
      let res ← screen2ray normalize3 sys scene screen_gl_pixels
      let sys := { res.1 with focused_camera_uid := res.2.2 }
      match res.2.2 with
      | none => pure (sys, scene)
      | some _ =>
          match res.2.1 with
          | none => pure (sys, scene)
          | some (ray_origin, ray_direction) =>
              dispatch_state_handler sys scene ray_origin ray_direction true

/-- `handle_event_mouse_button_release`: on the left button, unconditionally
return to `NOT_HOVERING` (the leave/deactivated events go to external
listeners). -/
def handle_event_mouse_button_release (sys : Gizmo3DSystem) (scene : Scene)
    (button : Int) : Option (Gizmo3DSystem × Scene) :=
  if button ≠ MOUSE_LEFT then pure (sys, scene)
  else pure ({ sys with gizmo_state := .notHovering }, scene)

/-- `handle_event_parameter_updated`: a live update of the orientation
parameter takes effect immediately. -/
def handle_event_parameter_updated (sys : Gizmo3DSystem)
    (param : String) (value : GizmoOrientation) : Gizmo3DSystem :=
  if param = "orientation" then { sys with gizmo_orientation := value } else sys

/-- Sets the `visible` flag of one axis mesh (body of the inner loop of
`set_all_gizmo_3d_visibility`). -/
def set_mesh_visible (scene : Scene) (uid : UID) (visible : Bool) : Option Scene := do
  let m ← scene.meshes uid
  pure (scene.setMesh uid { m with visible := visible })

/-- Body of the camera loop of `set_all_gizmo_3d_visibility`. -/
def set_all_gizmo_3d_visibility_step (visible : Bool) (sc : Scene)
    (c : UID × CameraComp) : Option Scene := do
  let gizmo_3d_component ← sc.gizmos (sc.camera2gizmo c.1)
  let sc ← set_mesh_visible sc (gizmo_3d_component.axes_entities_uids 0) visible
  let sc ← set_mesh_visible sc (gizmo_3d_component.axes_entities_uids 1) visible
  set_mesh_visible sc (gizmo_3d_component.axes_entities_uids 2) visible

/-- `set_all_gizmo_3d_visibility`: for every camera's rig, set the `visible`
flag on the three axis meshes. -/
def set_all_gizmo_3d_visibility (scene : Scene) (visible : Bool) : Option Scene :=
  scene.cameras.foldlM (set_all_gizmo_3d_visibility_step visible) scene

/-- Body of the camera loop of `set_gizmo_to_selected_entity` (the selected
component is fetched once with `pool.get(uid, None)` before the loop; its
attributes are first dereferenced inside the loop). -/
def set_gizmo_to_selected_entity_step (selected? : Option Transform3D)
    (sc : Scene) (c : UID × CameraComp) : Option Scene := do
  let selected_transform_component ← selected?
  let gizmo_3d_entity_uid := sc.camera2gizmo c.1
  let gizmo_transform_component ← sc.transforms gizmo_3d_entity_uid
  pure (sc.setTransform gizmo_3d_entity_uid
    { gizmo_transform_component with
      position := selected_transform_component.position
      rotation := selected_transform_component.rotation
      input_values_updated := true })

/-- `set_gizmo_to_selected_entity`: copy the selected entity's position and
rotation into every rig transform. -/
def set_gizmo_to_selected_entity (sys : Gizmo3DSystem) (scene : Scene) :
    Option Scene :=
  scene.cameras.foldlM
    (set_gizmo_to_selected_entity_step (sys.selected_entity_uid.bind scene.transforms))
    scene

/-- `handle_event_entity_selected`: record the selection, show all rigs, snap
them to the entity, and — when idle — jump straight into camera-plane
translation so the user can keep holding the entity. -/
def handle_event_entity_selected (sys : Gizmo3DSystem) (scene : Scene)
    (uid : UID) : Option (Gizmo3DSystem × Scene) := do
  let sys := { sys with selected_entity_uid := some uid }
  let scene ← set_all_gizmo_3d_visibility scene true
  let scene ← set_gizmo_to_selected_entity sys scene
  if sys.gizmo_state = .notHovering then
    pure ({ sys with
      focused_gizmo_plane := GIZMO_3D_PLANE_CAMERA
      gizmo_state := .translatingOnPlane }, scene)
  else pure (sys, scene)

/-- `handle_event_entity_deselected`: clear the selection and hide all rigs. -/
def handle_event_entity_deselected (sys : Gizmo3DSystem) (scene : Scene) :
    Option (Gizmo3DSystem × Scene) := do
  let sys := { sys with selected_entity_uid := none }
  let scene ← set_all_gizmo_3d_visibility scene false
  pure (sys, scene)

/-- The four event kinds of the interaction state machine (§4.5): mouse-move,
mouse-press, mouse-release and selection-changed (`entity_selected` with a
uid, `entity_deselected` with `none`). -/
inductive GizmoEvent
  | mouseMove (pos : ℚ × ℚ)
  | mousePress (button : Int) (pos : ℚ × ℚ)
  | mouseRelease (button : Int)
  | selectionChanged (uid : Option UID)

/-- The event dispatch of `Gizmo3DSystem.__init__` / `System.on_event`
restricted to the four event kinds of §4.5. -/
def process_event (normalize3 : Vec3 → Vec3) (sys : Gizmo3DSystem)
    (scene : Scene) : GizmoEvent → Option (Gizmo3DSystem × Scene)
  | .mouseMove pos => handle_event_mouse_move normalize3 sys scene pos
  | .mousePress button pos => handle_event_mouse_button_press normalize3 sys scene button pos
  | .mouseRelease button => handle_event_mouse_button_release sys scene button
  | .selectionChanged (some uid) => handle_event_entity_selected sys scene uid
  | .selectionChanged none => handle_event_entity_deselected sys scene

/-- Python list indexing into the 3-element axes list: negative indices count
from the end, out-of-range indices raise `IndexError` (`none`). -/
def axes_list_get (axes : Fin 3 → UID) (i : Int) : Option UID :=
  let j : Int := if i < 0 then i + 3 else i
  if h : 0 ≤ j ∧ j < 3 then some (axes ⟨j.toNat, by omega⟩) else none

/-- `dehighlight_gizmo`: clear the highlight flag on every axis material of
the camera's rig. -/
def dehighlight_gizmo (scene : Scene) (camera_uid : UID) : Option Scene := do
  let gizmo_component ← scene.gizmos (scene.camera2gizmo camera_uid)
  let set1 := fun (sc : Scene) (i : Fin 3) => do
    let m ← sc.materials (gizmo_component.axes_entities_uids i)
    pure (sc.setMaterial (gizmo_component.axes_entities_uids i)
      { m with state_highlighted := false })
  let sc ← set1 scene 0
  let sc ← set1 sc 1
  set1 sc 2

/-- `highlight_active_gizmo_part`: when not idle, set the highlight flag on
the focused axis's material. -/
def highlight_active_gizmo_part (sys : Gizmo3DSystem) (scene : Scene)
    (camera_uid : UID) : Option Scene := do
  if sys.gizmo_state = .notHovering then pure scene
  else do
    let gizmo_component ← scene.gizmos (scene.camera2gizmo camera_uid)
    let axis_entity_uid ←
      axes_list_get gizmo_component.axes_entities_uids sys.focused_gizmo_axis_index
    let axis_material ← scene.materials axis_entity_uid
    pure (scene.setMaterial axis_entity_uid { axis_material with state_highlighted := true })

/-- `Gizmo3DSystem.update`: per frame, when an entity is selected, recompute
each rig's screen-space scale from the camera distance, mirror the selected
entity's position (and rotation, in local orientation) into the rig, and
refresh highlights in the hover states. -/
def update (sys : Gizmo3DSystem) (scene : Scene) : Option Scene := do
  match sys.selected_entity_uid with
  | none => pure scene
  | some sel_uid => do
      let selected_transform_component ← scene.transforms sel_uid
      let selected_world_position := selected_transform_component.world_matrix.translation
      scene.cameras.foldlM (fun sc c => do
        let gizmo_3d_entity_uid := sc.camera2gizmo c.1
        let gizmo_transform_component ← sc.transforms gizmo_3d_entity_uid
        let camera_t ← sc.transforms c.1
        let view_matrix := Mat4.evenFasterInverse camera_t.world_matrix
        let gizmo_scale := set_gizmo_scale view_matrix selected_world_position
        let viewport ← c.2.viewport_pixels
        let viewport_height := viewport.2.2.2
        let gizmo_scale := gizmo_scale * (GIZMO_3D_VIEWPORT_SCALE_COEFFICIENT / viewport_height)
        let gizmo_transform_component := { gizmo_transform_component with
          scale := ⟨gizmo_scale, gizmo_scale, gizmo_scale⟩
          input_values_updated := true }
        let gizmo_transform_component :=
          match sys.gizmo_orientation with
          | .global' => { gizmo_transform_component with
              position := selected_transform_component.position
              rotation := ⟨0, 0, 0⟩ }
          | .local' => { gizmo_transform_component with
              position := selected_transform_component.position
              rotation := selected_transform_component.rotation }
        let sc := sc.setTransform gizmo_3d_entity_uid gizmo_transform_component
        if sys.gizmo_state = .notHovering ∨ sys.gizmo_state = .hoveringAxis then do
          let sc ← dehighlight_gizmo sc c.1
          highlight_active_gizmo_part sys sc c.1
        else pure sc) scene

/-!  Predicates used to state the claims. -/

/-- The capsule-radius test of §4.1: the squared ray-segment distance is below
`radius²`. -/
def CapsuleHit (ray_origin ray_direction p0 p1 : Vec3) (radius : ℚ) : Prop :=
  distance2_ray_segment ray_origin ray_direction p0 p1 < radius * radius

instance (o d p0 p1 : Vec3) (r : ℚ) : Decidable (CapsuleHit o d p0 p1 r) := by
  unfold CapsuleHit
  infer_instance

/-- The ray parameter `t` of the closest approach between the ray and a
segment (distance from the ray origin to the closest-approach point, in units
of the ray direction). -/
def ray_param (ray_origin ray_direction p0 p1 : Vec3) : ℚ :=
  (nearest_point_on_segment ray_origin ray_direction p0 p1).2

/-- The four gizmo states reachable from the initial `NOT_HOVERING` state
(no handler ever assigns `HOVERING_PLANE` or `ROTATE_AROUND_AXIS`). -/
def inCoreStates (s : GizmoState) : Prop :=
  s = .notHovering ∨ s = .hoveringAxis ∨ s = .translatingOnAxis ∨ s = .translatingOnPlane

instance (s : GizmoState) : Decidable (inCoreStates s) := by
  unfold inCoreStates
  infer_instance

/-- Well-formedness of the scene relative to the system state: every entity
the handlers dereference is present in its pool, and a drag in progress has
its drag-start snapshot.  `initialise` and the selection flow establish these;
§7 calls their absence the missing-entity fault. -/
structure SceneWF (sys : Gizmo3DSystem) (scene : Scene) : Prop where
  selected_transform : ∀ uid, sys.selected_entity_uid = some uid →
    (scene.transforms uid).isSome
  selected_entity : ∀ uid, sys.selected_entity_uid = some uid →
    ∃ e, scene.entities uid = some e ∧
      ∀ p, e.parent_uid = some p → (scene.transforms p).isSome
  camera_transform : ∀ c ∈ scene.cameras, (scene.transforms c.1).isSome
  rig_transform : ∀ c ∈ scene.cameras,
    (scene.transforms (scene.camera2gizmo c.1)).isSome
  rig_gizmo : ∀ c ∈ scene.cameras,
    ∃ g, scene.gizmos (scene.camera2gizmo c.1) = some g ∧
      ∀ i : Fin 3, (scene.meshes (g.axes_entities_uids i)).isSome
  drag_snapshot : sys.gizmo_state = .translatingOnAxis →
    (sys.original_active_local_position).isSome ∧
    (sys.original_active_world_matrix).isSome

/-- Event-specific presence requirement: a selection event must name an entity
that has a transform (the selection system selects existing entities). -/
def EvOK (ev : GizmoEvent) (scene : Scene) : Prop :=
  match ev with
  | .selectionChanged (some uid) => (scene.transforms uid).isSome
  | _ => True

/-!  Concrete fixtures used by witnesses and counterexamples. -/

/-- Rotation by 90 degrees about the Z axis (a rigid world matrix whose local
Y column is `(-1, 0, 0)`). -/
def rotZ90 : Mat4 := ⟨0,-1,0,0, 1,0,0,0, 0,0,1,0, 0,0,0,1⟩

/-- An identity transform component. -/
def tIdentity : Transform3D := {
  position := ⟨0, 0, 0⟩
  rotation := ⟨0, 0, 0⟩
  scale := ⟨1, 1, 1⟩
  local_matrix := Mat4.identity
  world_matrix := Mat4.identity
  input_values_updated := false }

/-- A camera with a `10 × 10` viewport and identity inverse projection. -/
def camFix : CameraComp := {
  viewport_pixels := some (0, 0, 10, 10)
  inverse_projection_matrix := Mat4.identity }

/-- A baseline system state: entity 1 selected, hovering the Y axis, global
orientation, identity gizmo world matrix. -/
def sysFix : Gizmo3DSystem := {
  selected_entity_uid := some 1
  local_axis_offset_point := ⟨0, 0, 0⟩
  original_active_local_position := none
  original_active_local_matrix := none
  original_active_world_matrix := none
  gizmo_orientation := .global'
  gizmo_selection_enabled := true
  gizmo_world_matrix := Mat4.identity
  gizmo_transformed_axes := GIZMO_3D_AXES
  focused_gizmo_axis_index := 1
  focused_gizmo_plane := -1
  focused_camera_uid := none
  gizmo_state := .hoveringAxis
  mouse_screen_position := (0, 0) }

/-- Scene for the orientation-toggle scenario: entity 1 is a root entity whose
world matrix is `rotZ90`, with no cameras (the drag handlers do not consult
the camera pool). -/
def sceneTog : Scene := {
  transforms := fun u => if u = 1 then some { tIdentity with
    local_matrix := rotZ90
    world_matrix := rotZ90 } else none
  entities := fun u => if u = 1 then some ⟨none⟩ else none
  cameras := []
  camera2gizmo := fun _ => 0
  gizmos := fun _ => none
  materials := fun _ => none
  meshes := fun _ => none }

/-- One drag of the orientation-toggle scenario: press on the Y axis with the
mouse ray `origin (2,0,0), direction (0,0,1)` (the state handler for
`HOVERING_AXIS` with `mouse_press=True`), optionally toggle the orientation
parameter to local mid-drag, then move with the ray
`origin (2,3,0), direction (0,0,1)` (the state handler for
`TRANSLATING_ON_AXIS`); returns the selected entity's resulting position. -/
def runDragToggling (toggle : Bool) : Option Vec3 := do
  let r1 ← handle_state_hovering_axis sysFix sceneTog ⟨2,0,0⟩ ⟨0,0,1⟩ true
  let s2 := if toggle then handle_event_parameter_updated r1.1 "orientation" .local' else r1.1
  let r2 ← handle_state_translate_on_axis s2 r1.2 ⟨2,3,0⟩ ⟨0,0,1⟩ false
  let t ← r2.2.transforms 1
  pure t.position

/-- Scene with one camera (uid 0) owning pixels `[0,10]²`, its rig transform
at uid 100, and selected entity 1; all present. -/
def sceneCam : Scene := {
  transforms := fun u =>
    if u = 0 then some tIdentity
    else if u = 1 then some tIdentity
    else if u = 100 then some tIdentity else none
  entities := fun u => if u = 1 then some ⟨none⟩ else none
  cameras := [(0, camFix)]
  camera2gizmo := fun _ => 100
  gizmos := fun _ => none
  materials := fun _ => none
  meshes := fun _ => none }

/-- System state stuck in `ROTATE_AROUND_AXIS` with entity 1 selected. -/
def sysRot : Gizmo3DSystem := { sysFix with gizmo_state := .rotateAroundAxis }

/-- System state for hit-test witnesses: camera 0 focused. -/
def sysHit : Gizmo3DSystem := { sysFix with focused_camera_uid := some 0 }

/-- System state mid-drag with snapshots taken (identity world matrix,
original position `(1,2,3)`, offset point at the origin). -/
def sysDrag : Gizmo3DSystem := { sysFix with
  gizmo_state := .translatingOnAxis
  original_active_local_position := some ⟨1, 2, 3⟩
  original_active_world_matrix := some Mat4.identity
  original_active_local_matrix := some Mat4.identity }

/-- Scene where the selected entity 1 still has an entity record but its
transform component is gone from the Transform pool (deleted mid-drag). -/
def sceneMissing : Scene := {
  transforms := fun _ => none
  entities := fun u => if u = 1 then some ⟨none⟩ else none
  cameras := []
  camera2gizmo := fun _ => 0
  gizmos := fun _ => none
  materials := fun _ => none
  meshes := fun _ => none }

/-- Scene for the drag-formula witness: entity 1 is a root entity with the
identity world matrix. -/
def sceneDragW : Scene := {
  transforms := fun u => if u = 1 then some tIdentity else none
  entities := fun u => if u = 1 then some ⟨none⟩ else none
  cameras := []
  camera2gizmo := fun _ => 0
  gizmos := fun _ => none
  materials := fun _ => none
  meshes := fun _ => none }

/-- Scene with two cameras, uids 1 then 2 in registration order, with the
same viewport (both contain the pixel `(5,5)`). -/
def sceneTwoCams : Scene := { sceneCam with cameras := [(1, camFix), (2, camFix)] }

/-- `sysFix` still idle (`NOT_HOVERING`). -/
def sysNotHover : Gizmo3DSystem := { sysFix with gizmo_state := .notHovering }

/-- The system state right after the press of the orientation-toggle scenario:
snapshot of entity 1's transform taken, offset point at the origin. -/
def sysPressed : Gizmo3DSystem := { sysFix with
  gizmo_state := .translatingOnAxis
  original_active_local_position := some ⟨0, 0, 0⟩
  original_active_world_matrix := some rotZ90
  original_active_local_matrix := some rotZ90
  local_axis_offset_point := ⟨0, 0, 0⟩ }

/-- The scene of the drag-formula witness after the handler writes position
`(0,5,0) - (0,0,0) + (1,2,3) = (1,7,3)` into entity 1. -/
def sceneDragWAfter : Scene :=
  sceneDragW.setTransform 1 { tIdentity with
    position := Vec3.mk 0 5 0 - Vec3.mk 0 0 0 + Vec3.mk 1 2 3
    input_values_updated := true }

/-!  Helper lemmas. -/

theorem Vec3.add_def (a b : Vec3) : a + b = ⟨a.x + b.x, a.y + b.y, a.z + b.z⟩ := rfl

theorem Vec3.sub_def (a b : Vec3) : a - b = ⟨a.x - b.x, a.y - b.y, a.z - b.z⟩ := rfl

theorem Vec3.smul_def (c : ℚ) (v : Vec3) : c • v = ⟨c * v.x, c * v.y, c * v.z⟩ := rfl

theorem Vec3.sub_add_comm' (a b c : Vec3) : a - b + c = c + (a - b) := by
  cases a
  cases b
  cases c
  simp only [Vec3.sub_def, Vec3.add_def, Vec3.mk.injEq]
  refine ⟨by ring, by ring, by ring⟩

/-- Claim C5: for every pixel position and viewport rect, the pixel-to-NDC
conversion returns `none` exactly when the pixel lies outside the rect on any
of the four sides, and otherwise returns `2*((pixel-rect.xy)/rect.size) - 1`,
lying in `[-1, 1]` on both axes. -/
theorem pixel_to_viewport_ndc_spec (px py vx vy vw vh : ℚ)
    (hw : 0 < vw) (hh : 0 < vh) :
    (screen_gl_position_pixels2viewport_position (px, py) (vx, vy, vw, vh) = none ↔
      (px < vx ∨ px > vx + vw ∨ py < vy ∨ py > vy + vh)) ∧
    (¬(px < vx ∨ px > vx + vw ∨ py < vy ∨ py > vy + vh) →
      screen_gl_position_pixels2viewport_position (px, py) (vx, vy, vw, vh) =
        some (2 * ((px - vx) / vw) - 1, 2 * ((py - vy) / vh) - 1) ∧
      -1 ≤ 2 * ((px - vx) / vw) - 1 ∧ 2 * ((px - vx) / vw) - 1 ≤ 1 ∧
      -1 ≤ 2 * ((py - vy) / vh) - 1 ∧ 2 * ((py - vy) / vh) - 1 ≤ 1) := by
  unfold screen_gl_position_pixels2viewport_position
  dsimp only
  split_ifs with h1 h2 h3 h4
  · exact ⟨⟨fun _ => Or.inl h1, fun _ => rfl⟩, fun hc => absurd (Or.inl h1) hc⟩
  · exact ⟨⟨fun _ => Or.inr (Or.inl h2), fun _ => rfl⟩,
      fun hc => absurd (Or.inr (Or.inl h2)) hc⟩
  · exact ⟨⟨fun _ => Or.inr (Or.inr (Or.inl h3)), fun _ => rfl⟩,
      fun hc => absurd (Or.inr (Or.inr (Or.inl h3))) hc⟩
  · exact ⟨⟨fun _ => Or.inr (Or.inr (Or.inr h4)), fun _ => rfl⟩,
      fun hc => absurd (Or.inr (Or.inr (Or.inr h4))) hc⟩
  · have hx0 : 0 ≤ (px - vx) / vw := div_nonneg (by linarith) hw.le
    have hx1 : (px - vx) / vw ≤ 1 := (div_le_one hw).mpr (by linarith)
    have hy0 : 0 ≤ (py - vy) / vh := div_nonneg (by linarith) hh.le
    have hy1 : (py - vy) / vh ≤ 1 := (div_le_one hh).mpr (by linarith)
    refine ⟨⟨fun h => by simp at h, fun hor => ?_⟩,
      fun _ => ⟨?_, by linarith, by linarith, by linarith, by linarith⟩⟩
    · rcases hor with h | h | h | h
      · exact absurd h h1
      · exact absurd h h2
      · exact absurd h h3
      · exact absurd h h4
    · simp only [Option.some.injEq, Prod.mk.injEq]
      constructor
      · ring
      · ring

/-- Claim C5 witness: the four concrete cases for the viewport rect
`(0, 0, 800, 600)`. -/
theorem pixel_to_viewport_ndc_spec_witness :
    screen_gl_position_pixels2viewport_position (400, 300) (0, 0, 800, 600) = some (0, 0) ∧
    screen_gl_position_pixels2viewport_position (0, 0) (0, 0, 800, 600) = some (-1, -1) ∧
    screen_gl_position_pixels2viewport_position (800, 600) (0, 0, 800, 600) = some (1, 1) ∧
    screen_gl_position_pixels2viewport_position (900, 300) (0, 0, 800, 600) = none := by
  have h1 := (pixel_to_viewport_ndc_spec 400 300 0 0 800 600 (by norm_num) (by norm_num)).2
    (by norm_num)
  have h2 := (pixel_to_viewport_ndc_spec 0 0 0 0 800 600 (by norm_num) (by norm_num)).2
    (by norm_num)
  have h3 := (pixel_to_viewport_ndc_spec 800 600 0 0 800 600 (by norm_num) (by norm_num)).2
    (by norm_num)
  have h4 := (pixel_to_viewport_ndc_spec 900 300 0 0 800 600 (by norm_num) (by norm_num)).1
  refine ⟨?_, ?_, ?_, ?_⟩
  · rw [h1.1]
    norm_num
  · rw [h2.1]
    norm_num
  · rw [h3.1]
    norm_num
  · exact h4.mpr (by norm_num)

/-- Claim C6, failing input: with the identity view matrix and the object at
the camera origin (`view_z = 0`), `set_gizmo_scale` returns exactly `0` — not
a positive epsilon floor. -/
theorem gizmo_scale_zero_at_camera_origin :
    set_gizmo_scale Mat4.identity ⟨0, 0, 0⟩ = 0 := by
  norm_num [set_gizmo_scale, Mat4.mulVector3, Mat4.identity,
    GIZMO_3D_ANGLE_TANGENT_COEFFICIENT]

/-- Characterisation of a successful `handle_state_translate_on_axis` step:
the system state is untouched and the selected entity's transform is rewritten
with position `projected - offset + original` and the update flag set. -/
theorem handle_state_translate_on_axis_spec
    (sys : Gizmo3DSystem) (scene : Scene) (o d : Vec3) (mp : Bool)
    (uid : UID) (t : Transform3D) (orig p : Vec3)
    (hsel : sys.selected_entity_uid = some uid)
    (ht : scene.transforms uid = some t)
    (horig : sys.original_active_local_position = some orig)
    (hp : get_projected_point_on_axis sys scene o d = some p) :
    handle_state_translate_on_axis sys scene o d mp =
      some (sys, scene.setTransform uid
        { t with
          position := p - sys.local_axis_offset_point + orig
          input_values_updated := true }) := by
  simp [handle_state_translate_on_axis, hp, hsel, horig, ht]

/-- Evaluation of the projected point for the drag-formula witness geometry:
global orientation, identity gizmo world matrix, Y axis, mouse ray
`origin (0,5,7), direction (0,0,1)`. -/
theorem proj_eval_dragW :
    get_projected_point_on_axis sysDrag sceneDragW ⟨0, 5, 7⟩ ⟨0, 0, 1⟩ =
      some ⟨0, 5, 0⟩ := by
  norm_num [get_projected_point_on_axis, ray2ray_nearest_point_on_ray_0, sysDrag, sysFix,
    sceneDragW, tIdentity, Mat4.identity, Mat4.translation, Mat4.colPy, Mat4.mulVector3,
    Vec3.dot, Option.bind, Vec3.add_def, Vec3.sub_def, Vec3.smul_def]

/-- Claim C1: while dragging on an axis, a mouse move writes
`original_active_local_position + (new projected point - local_axis_offset_point)`
into the selected entity's local position and marks the transform dirty. -/
theorem translate_on_axis_writes_snapshot_relative_position
    (sys : Gizmo3DSystem) (scene : Scene) (o d : Vec3) (mp : Bool)
    (uid : UID) (t : Transform3D) (orig p : Vec3)
    (hsel : sys.selected_entity_uid = some uid)
    (ht : scene.transforms uid = some t)
    (horig : sys.original_active_local_position = some orig)
    (hp : get_projected_point_on_axis sys scene o d = some p) :
    handle_state_translate_on_axis sys scene o d mp =
      some (sys, scene.setTransform uid
        { t with
          position := orig + (p - sys.local_axis_offset_point)
          input_values_updated := true }) := by
  rw [handle_state_translate_on_axis_spec sys scene o d mp uid t orig p hsel ht horig hp,
    Vec3.sub_add_comm']

/-- Claim C1 witness: with `original_local_position = (1,2,3)`,
`local_axis_offset_point = (0,0,0)` and a ray whose projected point on the
snapshotted Y axis is `(0,5,0)`, the written position is `(1,7,3)`. -/
theorem translate_on_axis_writes_snapshot_relative_position_witness :
    handle_state_translate_on_axis sysDrag sceneDragW ⟨0, 5, 7⟩ ⟨0, 0, 1⟩ false =
      some (sysDrag, sceneDragW.setTransform 1
        { tIdentity with
          position := Vec3.mk 1 2 3 + (Vec3.mk 0 5 0 - Vec3.mk 0 0 0)
          input_values_updated := true }) ∧
    Vec3.mk 1 2 3 + (Vec3.mk 0 5 0 - Vec3.mk 0 0 0) = Vec3.mk 1 7 3 := by
  constructor
  · exact translate_on_axis_writes_snapshot_relative_position sysDrag sceneDragW
      ⟨0, 5, 7⟩ ⟨0, 0, 1⟩ false 1 tIdentity ⟨1, 2, 3⟩ ⟨0, 5, 0⟩ rfl rfl rfl proj_eval_dragW
  · norm_num [Vec3.add_def, Vec3.sub_def]

/-- Claim C9: a mouse move processed while dragging on an axis leaves the
drag-start snapshot fields untouched (indeed the whole system state), and in
the scene modifies exactly the selected entity's transform — new position and
raised update flag — leaving every other pool entry and every other store
unchanged. -/
theorem translate_on_axis_preserves_drag_snapshot
    (sys sys' : Gizmo3DSystem) (scene scene' : Scene) (o d : Vec3) (mp : Bool)
    (uid : UID)
    (hsel : sys.selected_entity_uid = some uid)
    (h : handle_state_translate_on_axis sys scene o d mp = some (sys', scene')) :
    sys'.original_active_local_position = sys.original_active_local_position ∧
    sys'.original_active_world_matrix = sys.original_active_world_matrix ∧
    sys'.original_active_local_matrix = sys.original_active_local_matrix ∧
    sys'.local_axis_offset_point = sys.local_axis_offset_point ∧
    sys' = sys ∧
    (∀ v, v ≠ uid → scene'.transforms v = scene.transforms v) ∧
    (∃ t orig p, scene.transforms uid = some t ∧
      sys.original_active_local_position = some orig ∧
      get_projected_point_on_axis sys scene o d = some p ∧
      scene'.transforms uid = some { t with
        position := p - sys.local_axis_offset_point + orig
        input_values_updated := true }) ∧
    scene'.entities = scene.entities ∧
    scene'.cameras = scene.cameras ∧
    scene'.camera2gizmo = scene.camera2gizmo ∧
    scene'.gizmos = scene.gizmos ∧
    scene'.materials = scene.materials ∧
    scene'.meshes = scene.meshes := by
  unfold handle_state_translate_on_axis at h
  cases hp : get_projected_point_on_axis sys scene o d with
  | none =>
      rw [hp] at h
      simp at h
  | some p =>
      rw [hp] at h
      cases horig : sys.original_active_local_position with
      | none =>
          rw [horig] at h
          simp at h
      | some orig =>
          rw [horig, hsel] at h
          simp only [Option.bind_eq_bind', Option.some_bind] at h
          cases ht : scene.transforms uid with
          | none =>
              rw [ht] at h
              simp at h
          | some t =>
              rw [ht] at h
              simp only [Option.bind_eq_bind', Option.some_bind, Option.pure_def,
                Option.some.injEq, Prod.mk.injEq] at h
              obtain ⟨hsys, hscene⟩ := h
              subst hsys
              subst hscene
              refine ⟨horig, rfl, rfl, rfl, rfl, ?_, ⟨t, orig, p, rfl, rfl, rfl, ?_⟩,
                rfl, rfl, rfl, rfl, rfl, rfl⟩
              · intro v hv
                simp [Scene.setTransform, hv]
              · simp [Scene.setTransform]

/-- Claim C9 witness: the drag-formula scenario instantiated — the handler
succeeds, and entries other than the selected entity's transform are
untouched. -/
theorem translate_on_axis_preserves_drag_snapshot_witness :
    sceneDragWAfter.transforms 2 = sceneDragW.transforms 2 ∧
    sceneDragWAfter.meshes = sceneDragW.meshes := by
  have h := translate_on_axis_preserves_drag_snapshot sysDrag sysDrag sceneDragW
    sceneDragWAfter ⟨0, 5, 7⟩ ⟨0, 0, 1⟩ false 1 rfl
    (show handle_state_translate_on_axis sysDrag sceneDragW ⟨0, 5, 7⟩ ⟨0, 0, 1⟩ false =
        some (sysDrag, sceneDragWAfter) from
      handle_state_translate_on_axis_spec sysDrag sceneDragW ⟨0, 5, 7⟩ ⟨0, 0, 1⟩ false 1
        tIdentity ⟨1, 2, 3⟩ ⟨0, 5, 0⟩ rfl rfl rfl proj_eval_dragW)
  obtain ⟨-, -, -, -, -, hframe, -, -, -, -, -, -, hmesh⟩ := h
  exact ⟨hframe 2 (by decide), hmesh⟩

/-- Pressing on the hovered Y axis in the toggle scenario takes the snapshot
of entity 1's transform (world matrix `rotZ90`) and computes the offset point
`(0,0,0)`. -/
theorem press_eval_tog :
    handle_state_hovering_axis sysFix sceneTog ⟨2, 0, 0⟩ ⟨0, 0, 1⟩ true =
      some (sysPressed, sceneTog) := by
  norm_num [handle_state_hovering_axis, get_projected_point_on_axis,
    ray2ray_nearest_point_on_ray_0, sysFix, sysPressed, sceneTog, tIdentity, rotZ90,
    Mat4.identity, Mat4.translation, Mat4.colPy, Mat4.mulVector3, Vec3.dot,
    Option.bind, Vec3.add_def, Vec3.sub_def, Vec3.smul_def]

/-- Projecting the move ray on the *global* Y axis gives `(0,3,0)`. -/
theorem proj_eval_tog_global :
    get_projected_point_on_axis sysPressed sceneTog ⟨2, 3, 0⟩ ⟨0, 0, 1⟩ =
      some ⟨0, 3, 0⟩ := by
  norm_num [get_projected_point_on_axis, ray2ray_nearest_point_on_ray_0, sysPressed,
    sysFix, sceneTog, tIdentity, rotZ90, Mat4.identity, Mat4.translation, Mat4.colPy,
    Mat4.mulVector3, Vec3.dot, Option.bind, Vec3.add_def, Vec3.sub_def, Vec3.smul_def]

/-- After toggling the orientation to local mid-drag, the same move ray is
projected on the snapshotted *local* Y column `(-1,0,0)` instead, giving
`(2,0,0)`. -/
theorem proj_eval_tog_local :
    get_projected_point_on_axis { sysPressed with gizmo_orientation := .local' }
      sceneTog ⟨2, 3, 0⟩ ⟨0, 0, 1⟩ = some ⟨2, 0, 0⟩ := by
  norm_num [get_projected_point_on_axis, ray2ray_nearest_point_on_ray_0, sysPressed,
    sysFix, sceneTog, tIdentity, rotZ90, Mat4.identity, Mat4.translation, Mat4.colPy,
    Mat4.mulVector3, Vec3.dot, Option.bind, Vec3.add_def, Vec3.sub_def, Vec3.smul_def]

/-- The live parameter-update handler switches the orientation immediately. -/
theorem param_updated_eval :
    handle_event_parameter_updated sysPressed "orientation" .local' =
      { sysPressed with gizmo_orientation := .local' } := by
  simp [handle_event_parameter_updated]

/-- Claim C2, failing input: the same press and move rays produce different
final positions depending on whether the orientation parameter is toggled
mid-drag — the axis basis is re-read live on every move, not held fixed from
drag start. -/
theorem orientation_toggle_changes_drag_result :
    runDragToggling true = some ⟨2, 0, 0⟩ ∧
    runDragToggling false = some ⟨0, 3, 0⟩ ∧
    runDragToggling true ≠ runDragToggling false := by
  have htr := handle_state_translate_on_axis_spec
    { sysPressed with gizmo_orientation := .local' } sceneTog ⟨2, 3, 0⟩ ⟨0, 0, 1⟩ false 1
    { tIdentity with local_matrix := rotZ90, world_matrix := rotZ90 }
    ⟨0, 0, 0⟩ ⟨2, 0, 0⟩ rfl rfl rfl proj_eval_tog_local
  have hfa := handle_state_translate_on_axis_spec sysPressed sceneTog ⟨2, 3, 0⟩ ⟨0, 0, 1⟩
    false 1 { tIdentity with local_matrix := rotZ90, world_matrix := rotZ90 }
    ⟨0, 0, 0⟩ ⟨0, 3, 0⟩ rfl rfl rfl proj_eval_tog_global
  have h1 : runDragToggling true = some ⟨2, 0, 0⟩ := by
    simp only [runDragToggling, press_eval_tog, Option.bind_eq_bind', Option.some_bind,
      if_true, param_updated_eval, htr]
    norm_num [Scene.setTransform, sysPressed, sysFix, Vec3.add_def, Vec3.sub_def]
  have h2 : runDragToggling false = some ⟨0, 3, 0⟩ := by
    simp only [runDragToggling, press_eval_tog, Option.bind_eq_bind', Option.some_bind,
      Bool.false_eq_true, if_false, hfa]
    norm_num [Scene.setTransform, sysPressed, sysFix, Vec3.add_def, Vec3.sub_def]
  refine ⟨h1, h2, ?_⟩
  rw [h1, h2]
  intro hcontra
  simp only [Option.some.injEq, Vec3.mk.injEq] at hcontra
  norm_num at hcontra

/-- Claim C7, failing input: with entity 1 selected but its transform gone
from the Transform pool, both the per-frame update and the axis-drag handler
dereference the missing entry and raise (`KeyError`, modelled as `none`) —
no defensive check, no transition to `NOT_HOVERING`. -/
theorem missing_entity_raises :
    update sysDrag sceneMissing = none ∧
    handle_state_translate_on_axis sysDrag sceneMissing ⟨2, 0, 0⟩ ⟨0, 0, 1⟩ false = none := by
  constructor
  · simp [update, sysDrag, sysFix, sceneMissing]
  · simp [handle_state_translate_on_axis, get_projected_point_on_axis, sysDrag, sysFix,
      sceneMissing, Option.bind_eq_bind', Option.some_bind]

/-- Claim C10: handling `entity_selected` while idle jumps straight to
camera-plane translation: the focused plane becomes the camera plane and the
state becomes `TRANSLATING_ON_PLANE`, with the entity recorded as selected. -/
theorem entity_selected_enters_camera_plane
    (sys sys' : Gizmo3DSystem) (scene scene' : Scene) (uid : UID)
    (hstate : sys.gizmo_state = .notHovering)
    (h : handle_event_entity_selected sys scene uid = some (sys', scene')) :
    sys'.gizmo_state = .translatingOnPlane ∧
    sys'.focused_gizmo_plane = GIZMO_3D_PLANE_CAMERA ∧
    sys'.selected_entity_uid = some uid := by
  unfold handle_event_entity_selected at h
  cases hv : set_all_gizmo_3d_visibility scene true with
  | none =>
      rw [hv] at h
      simp at h
  | some s1 =>
      rw [hv] at h
      simp only [Option.bind_eq_bind', Option.some_bind] at h
      cases hg : set_gizmo_to_selected_entity
          { sys with selected_entity_uid := some uid } s1 with
      | none =>
          rw [hg] at h
          simp at h
      | some s2 =>
          rw [hg] at h
          simp only [Option.bind_eq_bind', Option.some_bind, hstate, reduceIte,
            Option.pure_def, Option.some.injEq, Prod.mk.injEq] at h
          obtain ⟨hsys, -⟩ := h
          rw [← hsys]
          exact ⟨rfl, rfl, rfl⟩

/-- Claim C10 witness: selecting entity 1 while idle in a camera-less scene
lands in `TRANSLATING_ON_PLANE` focused on the camera plane. -/
theorem entity_selected_enters_camera_plane_witness :
    (handle_event_entity_selected sysNotHover sceneTog 1).map
      (fun r => (r.1.gizmo_state, r.1.focused_gizmo_plane, r.1.selected_entity_uid)) =
    some (.translatingOnPlane, GIZMO_3D_PLANE_CAMERA, some 1) := by
  cases hev : handle_event_entity_selected sysNotHover sceneTog 1 with
  | none =>
      exfalso
      revert hev
      simp [handle_event_entity_selected, set_all_gizmo_3d_visibility,
        set_gizmo_to_selected_entity, sceneTog, sysNotHover, sysFix]
  | some r =>
      obtain ⟨h1, h2, h3⟩ := entity_selected_enters_camera_plane sysNotHover r.1 sceneTog
        r.2 1 rfl (by rw [hev])
      simp [h1, h2, h3]

/-- Claim C8 counterexample: with two cameras registered in order 1, 2, both
of whose viewports contain the pixel `(5,5)`, the resolution returns camera 2
— the *last* match — not the first. -/
theorem active_camera_is_not_first_match :
    sceneTwoCams.cameras = [(1, camFix), (2, camFix)] ∧
    is_inside_viewport camFix (5, 5) = true ∧
    (get_active_camera sceneTwoCams (5, 5)).map Prod.fst = some 2 := by
  refine ⟨rfl, ?_, ?_⟩
  · norm_num [is_inside_viewport, camFix, decide_eq_true_eq]
  · norm_num [get_active_camera, sceneTwoCams, sceneCam, camFix, is_inside_viewport,
      List.foldl, decide_eq_true_eq]

/-- The overwrite-fold of `get_active_camera` keeps the last matching element:
it equals the first match of the reversed list (or the initial accumulator
when there is none). -/
theorem foldl_overwrite_eq_reverse_find {α : Type} (P : α → Bool) (l : List α) :
    ∀ acc : Option α,
      l.foldl (fun a c => if P c then some c else a) acc =
        match l.reverse.find? P with
        | some c => some c
        | none => acc := by
  induction l with
  | nil => intro acc; rfl
  | cons x xs ih =>
      intro acc
      simp only [List.foldl_cons, List.reverse_cons]
      rw [ih]
      cases hfind : xs.reverse.find? P with
      | some c => simp [List.find?_append, hfind]
      | none =>
          cases hPx : P x <;>
            simp [List.find?_append, hfind, hPx, List.find?]

/-- Claim C8 amended: the camera resolved for a mouse event is the *last*
camera, in registration order, whose viewport contains the pixel; when no
viewport contains it the resolution returns no camera, and a mouse-move is
then a no-op for the state machine (state and scene unchanged). -/
theorem get_active_camera_last_match_or_noop (scene : Scene) (p : ℚ × ℚ) :
    get_active_camera scene p =
      scene.cameras.reverse.find? (fun c => is_inside_viewport c.2 p) ∧
    (scene.cameras.reverse.find? (fun c => is_inside_viewport c.2 p) = none →
      ∀ (normalize3 : Vec3 → Vec3) (sys : Gizmo3DSystem),
        ∃ sys', handle_event_mouse_move normalize3 sys scene p = some (sys', scene) ∧
          sys'.gizmo_state = sys.gizmo_state) := by
  have hmain : get_active_camera scene p =
      scene.cameras.reverse.find? (fun c => is_inside_viewport c.2 p) := by
    rw [get_active_camera, foldl_overwrite_eq_reverse_find]
    cases scene.cameras.reverse.find? (fun c => is_inside_viewport c.2 p) <;> rfl
  refine ⟨hmain, fun hnone normalize3 sys => ?_⟩
  have hget : get_active_camera scene p = none := by rw [hmain, hnone]
  unfold handle_event_mouse_move
  cases hsel : sys.selected_entity_uid with
  | none =>
      exact ⟨{ sys with mouse_screen_position := p }, by simp [hsel], rfl⟩
  | some uid =>
      refine ⟨{ { sys with mouse_screen_position := p } with focused_camera_uid := none }, ?_, rfl⟩
      simp only [hsel, screen2ray, hget]
      rfl

/-- Claim C8 amended witness: pixel `(50,50)` lies outside both viewports of
the two-camera scene; the resolution finds no camera and a mouse-move leaves
the state machine untouched. -/
theorem get_active_camera_last_match_or_noop_witness :
    get_active_camera sceneTwoCams (50, 50) =
      sceneTwoCams.cameras.reverse.find? (fun c => is_inside_viewport c.2 (50, 50)) ∧
    (∃ sys', handle_event_mouse_move id sysFix sceneTwoCams (50, 50) = some (sys', sceneTwoCams) ∧
      sys'.gizmo_state = sysFix.gizmo_state) := by
  have h := get_active_camera_last_match_or_noop sceneTwoCams (50, 50)
  refine ⟨h.1, h.2 ?_ id sysFix⟩
  norm_num [sceneTwoCams, sceneCam, camFix, is_inside_viewport, List.find?,
    decide_eq_true_eq]

/-- The ray parameter returned by `nearest_point_on_segment` is never
negative (every branch clamps it at zero or divides two nonnegative
quantities). -/
theorem ray_param_nonneg (o d p0 p1 : Vec3) : 0 ≤ ray_param o d p0 p1 := by
  unfold ray_param nearest_point_on_segment
  dsimp only
  split_ifs with h1 h2 h3 h4 h5 h6 h7 <;>
    first
      | positivity
      | linarith
      | (apply div_nonneg <;> [skip; norm_num [glmEpsilon] at *] <;> linarith)

/-- The keep-the-smaller fold of `np.argmin` returns the element of
`v :: vs` that is strictly smaller than every other element (first index
wins exact ties, which is irrelevant under the strictness hypothesis). -/
theorem foldl_min_first {f : Fin 3 → ℚ} :
    ∀ (vs : List (Fin 3)) (v j : Fin 3), j ∈ v :: vs →
      (∀ i ∈ v :: vs, i ≠ j → f j < f i) →
      vs.foldl (fun best i => if f i < f best then i else best) v = j := by
  intro vs
  induction vs with
  | nil =>
      intro v j hmem _
      simp only [List.mem_singleton] at hmem
      simpa [List.foldl] using hmem.symm
  | cons x xs ih =>
      intro v j hmem hstrict
      have hstrict' : ∀ i, (i = v ∨ i = x ∨ i ∈ xs) → i ≠ j → f j < f i := by
        intro i hi hij
        exact hstrict i (by simpa [List.mem_cons] using hi) hij
      have hmem' : j = v ∨ j = x ∨ j ∈ xs := by simpa [List.mem_cons] using hmem
      simp only [List.foldl_cons]
      have hnext : ∀ w : Fin 3, (w = v ∨ w = x) → (j = w ∨ j ∈ xs) →
          xs.foldl (fun best i => if f i < f best then i else best) w = j := by
        intro w hw hjw
        refine ih w j (by simpa [List.mem_cons] using hjw) ?_
        intro i hi hij
        rcases List.mem_cons.mp hi with hiw | hixs
        · subst hiw
          rcases hw with hw | hw <;> subst hw
          · exact hstrict' i (Or.inl rfl) hij
          · exact hstrict' i (Or.inr (Or.inl rfl)) hij
        · exact hstrict' i (Or.inr (Or.inr hixs)) hij
      rcases hmem' with hjv | hjx | hjxs
      · subst hjv
        have hvx : ¬ f x < f j := by
          by_cases hxj : x = j
          · subst hxj
            exact lt_irrefl _
          · exact not_lt.mpr (le_of_lt (hstrict' x (Or.inr (Or.inl rfl)) hxj))
        rw [if_neg hvx]
        exact hnext j (Or.inl rfl) (Or.inl rfl)
      · subst hjx
        by_cases hjv : j = v
        · rcases eq_or_ne (f j) (f v) with hfe | hfn
          · rw [hfe, if_neg (lt_irrefl _)]
            exact hnext v (Or.inl rfl) (Or.inl hjv)
          · exact absurd (congrArg f hjv) hfn
        · have hlt : f j < f v := hstrict' v (Or.inl rfl) (fun hvj => hjv hvj.symm)
          rw [if_pos hlt]
          exact hnext j (Or.inr rfl) (Or.inl rfl)
      · by_cases hfxv : f x < f v
        · rw [if_pos hfxv]
          exact hnext x (Or.inr rfl) (Or.inr hjxs)
        · rw [if_neg hfxv]
          exact hnext v (Or.inl rfl) (Or.inr hjxs)

/-- Behaviour of the valid-filter / argmin selection of
`mouse_ray_check_axes_collision` on the three intersection entries: `-1` when
no entry is valid, and the index of the strictly smallest valid entry
otherwise. -/
theorem pick_axis_spec (dists : Fin 3 → ℚ) :
    ((∀ i, ¬ (-1 < dists i)) →
      (match (List.finRange 3).filter (fun i => decide (-1 < dists i)) with
        | [] => (-1 : Int)
        | v :: vs => ((vs.foldl (fun best i =>
            if dists i < dists best then i else best) v).val : Int)) = -1) ∧
    (∀ j : Fin 3, -1 < dists j →
      (∀ i, -1 < dists i → i ≠ j → dists j < dists i) →
      (match (List.finRange 3).filter (fun i => decide (-1 < dists i)) with
        | [] => (-1 : Int)
        | v :: vs => ((vs.foldl (fun best i =>
            if dists i < dists best then i else best) v).val : Int)) = (j.val : Int)) := by
  constructor
  · intro hall
    have hnil : (List.finRange 3).filter (fun i => decide (-1 < dists i)) = [] := by
      rw [List.filter_eq_nil_iff]
      intro a _
      simpa using hall a
    rw [hnil]
  · intro j hj hmin
    have hjmem : j ∈ (List.finRange 3).filter (fun i => decide (-1 < dists i)) := by
      rw [List.mem_filter]
      exact ⟨List.mem_finRange j, by simpa using hj⟩
    cases hfl : (List.finRange 3).filter (fun i => decide (-1 < dists i)) with
    | nil => simp [hfl] at hjmem
    | cons v vs =>
        rw [hfl] at hjmem
        have hstrict : ∀ i ∈ v :: vs, i ≠ j → dists j < dists i := by
          intro i hi hij
          have hmemf : i ∈ (List.finRange 3).filter (fun k => decide (-1 < dists k)) := by
            rw [hfl]
            exact hi
          rw [List.mem_filter] at hmemf
          exact hmin i (by simpa using hmemf.2) hij
        have hfold := foldl_min_first vs v j hjmem hstrict
        simp [hfold]

/-- An intersection entry is valid (`> -1`) exactly when the axis passes the
capsule-radius test. -/
theorem capsule_hit_iff_entry (o d : Vec3) (pa pb : Fin 3 → Vec3) (r : ℚ) (i : Fin 3) :
    -1 < intersect_ray_capsules o d pa pb r i ↔ CapsuleHit o d (pa i) (pb i) r := by
  unfold intersect_ray_capsules CapsuleHit
  split_ifs with h
  · have := ray_param_nonneg o d (pa i) (pb i)
    unfold ray_param at this
    constructor
    · intro _
      exact h
    · intro _
      linarith
  · constructor
    · intro hc
      exact absurd hc (lt_irrefl _)
    · intro hc
      exact absurd hc h

/-- On a hit, the intersection entry is the ray parameter of the closest
approach. -/
theorem capsule_entry_eq_ray_param (o d : Vec3) (pa pb : Fin 3 → Vec3) (r : ℚ) (i : Fin 3)
    (h : CapsuleHit o d (pa i) (pb i) r) :
    intersect_ray_capsules o d pa pb r i = ray_param o d (pa i) (pb i) := by
  unfold intersect_ray_capsules ray_param
  rw [if_pos (show distance2_ray_segment o d (pa i) (pb i) < r * r from h)]

/-- Claim C3: for every ray, `mouse_ray_check_axes_collision` returns `-1`
when no axis passes its capsule-radius test; returns `i` when exactly axis `i`
passes; and when several pass, returns the axis whose ray parameter (distance
from the ray origin to the closest-approach point) is strictly smallest —
the axis nearest the camera. -/
theorem mouse_ray_check_axes_collision_spec
    (sys : Gizmo3DSystem) (scene : Scene) (o d : Vec3) (cu : UID) (gt : Transform3D)
    (hc : sys.focused_camera_uid = some cu)
    (hg : scene.transforms (scene.camera2gizmo cu) = some gt) :
    ((∀ i : Fin 3, ¬ CapsuleHit o d gt.position (sys.gizmo_transformed_axes i)
        (1/10 * gt.scale.x)) →
      mouse_ray_check_axes_collision sys scene o d = some (-1)) ∧
    (∀ j : Fin 3, CapsuleHit o d gt.position (sys.gizmo_transformed_axes j)
        (1/10 * gt.scale.x) →
      (∀ i : Fin 3, i ≠ j → ¬ CapsuleHit o d gt.position (sys.gizmo_transformed_axes i)
        (1/10 * gt.scale.x)) →
      mouse_ray_check_axes_collision sys scene o d = some ((j.val : Int))) ∧
    (∀ j : Fin 3, CapsuleHit o d gt.position (sys.gizmo_transformed_axes j)
        (1/10 * gt.scale.x) →
      (∀ i : Fin 3, CapsuleHit o d gt.position (sys.gizmo_transformed_axes i)
          (1/10 * gt.scale.x) → i ≠ j →
        ray_param o d gt.position (sys.gizmo_transformed_axes j) <
          ray_param o d gt.position (sys.gizmo_transformed_axes i)) →
      mouse_ray_check_axes_collision sys scene o d = some ((j.val : Int))) := by
  have hform : mouse_ray_check_axes_collision sys scene o d =
      some (match (List.finRange 3).filter (fun i => decide (-1 <
          intersect_ray_capsules o d (fun _ => gt.position) sys.gizmo_transformed_axes
            (1/10 * gt.scale.x) i)) with
        | [] => (-1 : Int)
        | v :: vs => ((vs.foldl (fun best i =>
            if intersect_ray_capsules o d (fun _ => gt.position) sys.gizmo_transformed_axes
                (1/10 * gt.scale.x) i <
              intersect_ray_capsules o d (fun _ => gt.position) sys.gizmo_transformed_axes
                (1/10 * gt.scale.x) best then i else best) v).val : Int)) := by
    unfold mouse_ray_check_axes_collision
    rw [hc]
    simp only [Option.bind_eq_bind', Option.some_bind, hg]
    cases (List.finRange 3).filter (fun i => decide (-1 <
        intersect_ray_capsules o d (fun _ => gt.position) sys.gizmo_transformed_axes
          (1/10 * gt.scale.x) i)) <;> rfl
  have hiff : ∀ i : Fin 3, (-1 < intersect_ray_capsules o d (fun _ => gt.position)
      sys.gizmo_transformed_axes (1/10 * gt.scale.x) i) ↔
      CapsuleHit o d gt.position (sys.gizmo_transformed_axes i) (1/10 * gt.scale.x) :=
    fun i => capsule_hit_iff_entry o d (fun _ => gt.position) sys.gizmo_transformed_axes
      (1/10 * gt.scale.x) i
  have hps := pick_axis_spec (intersect_ray_capsules o d (fun _ => gt.position)
    sys.gizmo_transformed_axes (1/10 * gt.scale.x))
  refine ⟨?_, ?_, ?_⟩
  · intro hnone
    rw [hform, hps.1 (fun i => (not_congr (hiff i)).mpr (hnone i))]
  · intro j hj honly
    rw [hform, hps.2 j ((hiff j).mpr hj) ?_]
    intro i hi hij
    exact absurd ((hiff i).mp hi) (honly i hij)
  · intro j hj hmin
    rw [hform, hps.2 j ((hiff j).mpr hj) ?_]
    intro i hi hij
    have hci := (hiff i).mp hi
    rw [capsule_entry_eq_ray_param o d (fun _ => gt.position) sys.gizmo_transformed_axes
        (1/10 * gt.scale.x) i hci,
      capsule_entry_eq_ray_param o d (fun _ => gt.position) sys.gizmo_transformed_axes
        (1/10 * gt.scale.x) j hj]
    exact hmin i hci hij

/-- Evaluation of the unit axis table at each index. -/
theorem gizmo_axes_eval_0 : GIZMO_3D_AXES 0 = ⟨1, 0, 0⟩ := rfl

theorem gizmo_axes_eval_1 : GIZMO_3D_AXES 1 = ⟨0, 1, 0⟩ := rfl

theorem gizmo_axes_eval_2 : GIZMO_3D_AXES 2 = ⟨0, 0, 1⟩ := rfl

theorem mouse_ray_check_axes_collision_spec_witness :
    CapsuleHit ⟨0, 1/2, -3⟩ ⟨0, 0, 1⟩ tIdentity.position (sysHit.gizmo_transformed_axes 1)
      (1/10 * tIdentity.scale.x) ∧
    mouse_ray_check_axes_collision sysHit sceneCam ⟨0, 1/2, -3⟩ ⟨0, 0, 1⟩ = some 1 := by
  have hhit : CapsuleHit ⟨0, 1/2, -3⟩ ⟨0, 0, 1⟩ tIdentity.position
      (sysHit.gizmo_transformed_axes 1) (1/10 * tIdentity.scale.x) := by
    norm_num [CapsuleHit, distance2_ray_segment, nearest_point_on_segment, glmEpsilon,
      sysHit, sysFix, gizmo_axes_eval_0, gizmo_axes_eval_1, gizmo_axes_eval_2, tIdentity, Vec3.dot, Vec3.length2,
      Vec3.add_def, Vec3.sub_def, Vec3.smul_def]
  have hmiss0 : ¬ CapsuleHit ⟨0, 1/2, -3⟩ ⟨0, 0, 1⟩ tIdentity.position
      (sysHit.gizmo_transformed_axes 0) (1/10 * tIdentity.scale.x) := by
    norm_num [CapsuleHit, distance2_ray_segment, nearest_point_on_segment, glmEpsilon,
      sysHit, sysFix, gizmo_axes_eval_0, gizmo_axes_eval_1, gizmo_axes_eval_2, tIdentity, Vec3.dot, Vec3.length2,
      Vec3.add_def, Vec3.sub_def, Vec3.smul_def]
  have hmiss2 : ¬ CapsuleHit ⟨0, 1/2, -3⟩ ⟨0, 0, 1⟩ tIdentity.position
      (sysHit.gizmo_transformed_axes 2) (1/10 * tIdentity.scale.x) := by
    norm_num [CapsuleHit, distance2_ray_segment, nearest_point_on_segment, glmEpsilon,
      sysHit, sysFix, gizmo_axes_eval_0, gizmo_axes_eval_1, gizmo_axes_eval_2, tIdentity, Vec3.dot, Vec3.length2,
      Vec3.add_def, Vec3.sub_def, Vec3.smul_def]
  have honly : ∀ i : Fin 3, i ≠ 1 → ¬ CapsuleHit ⟨0, 1/2, -3⟩ ⟨0, 0, 1⟩ tIdentity.position
      (sysHit.gizmo_transformed_axes i) (1/10 * tIdentity.scale.x) := by
    intro i hi
    fin_cases i
    · exact hmiss0
    · exact absurd rfl hi
    · exact hmiss2
  exact ⟨hhit, (mouse_ray_check_axes_collision_spec sysHit sceneCam ⟨0, 1/2, -3⟩ ⟨0, 0, 1⟩
    0 tIdentity rfl rfl).2.1 1 hhit honly⟩

/-- `get_active_camera` equals the first match of the reversed camera list. -/
theorem get_active_camera_eq (scene : Scene) (p : ℚ × ℚ) :
    get_active_camera scene p =
      scene.cameras.reverse.find? (fun c => is_inside_viewport c.2 p) := by
  rw [get_active_camera, foldl_overwrite_eq_reverse_find]
  cases scene.cameras.reverse.find? (fun c => is_inside_viewport c.2 p) <;> rfl

/-- A resolved active camera is a registered camera whose viewport contains
the pixel. -/
theorem get_active_camera_mem (scene : Scene) (p : ℚ × ℚ) (cu : UID) (c : CameraComp)
    (h : get_active_camera scene p = some (cu, c)) :
    (cu, c) ∈ scene.cameras ∧ is_inside_viewport c p = true := by
  rw [get_active_camera_eq] at h
  constructor
  · have := List.mem_of_find?_eq_some h
    exact List.mem_reverse.mp this
  · simpa using List.find?_some h

/-- A mesh-visibility write succeeds when the mesh exists and touches only
the mesh pool. -/
theorem set_mesh_visible_ok (sc : Scene) (uid : UID) (vis : Bool)
    (h : (sc.meshes uid).isSome) :
    ∃ sc', set_mesh_visible sc uid vis = some sc' ∧
      sc'.transforms = sc.transforms ∧
      sc'.entities = sc.entities ∧
      sc'.cameras = sc.cameras ∧
      sc'.camera2gizmo = sc.camera2gizmo ∧
      sc'.gizmos = sc.gizmos ∧
      sc'.materials = sc.materials ∧
      (∀ u, (sc.meshes u).isSome → (sc'.meshes u).isSome) := by
  obtain ⟨m, hm⟩ := Option.isSome_iff_exists.mp h
  refine ⟨sc.setMesh uid { m with visible := vis },
    by simp [set_mesh_visible, hm], rfl, rfl, rfl, rfl, rfl, rfl, ?_⟩
  intro u hu
  simp only [Scene.setMesh]
  by_cases huid : u = uid <;> simp [huid, hu]

/-- The camera loop of `set_all_gizmo_3d_visibility` succeeds when every
rig's gizmo component and axis meshes exist, and touches only the mesh
pool. -/
theorem visibility_fold_ok (vis : Bool) :
    ∀ (l : List (UID × CameraComp)) (sc : Scene),
      (∀ c ∈ l, ∃ g, sc.gizmos (sc.camera2gizmo c.1) = some g ∧
        ∀ i : Fin 3, (sc.meshes (g.axes_entities_uids i)).isSome) →
      ∃ sc', l.foldlM (set_all_gizmo_3d_visibility_step vis) sc = some sc' ∧
        sc'.transforms = sc.transforms ∧
        sc'.entities = sc.entities ∧
        sc'.cameras = sc.cameras ∧
        sc'.camera2gizmo = sc.camera2gizmo ∧
        sc'.gizmos = sc.gizmos ∧
        sc'.materials = sc.materials ∧
        (∀ u, (sc.meshes u).isSome → (sc'.meshes u).isSome) := by
  intro l
  induction l with
  | nil =>
      intro sc _
      exact ⟨sc, rfl, rfl, rfl, rfl, rfl, rfl, rfl, fun _ h => h⟩
  | cons c cs ih =>
      intro sc hl
      obtain ⟨g, hg, hmesh⟩ := hl c (List.mem_cons_self c cs)
      obtain ⟨s1, hs1, ht1, he1, hc1, hcg1, hgz1, hmat1, hm1⟩ :=
        set_mesh_visible_ok sc (g.axes_entities_uids 0) vis (hmesh 0)
      obtain ⟨s2, hs2, ht2, he2, hc2, hcg2, hgz2, hmat2, hm2⟩ :=
        set_mesh_visible_ok s1 (g.axes_entities_uids 1) vis (hm1 _ (hmesh 1))
      obtain ⟨s3, hs3, ht3, he3, hc3, hcg3, hgz3, hmat3, hm3⟩ :=
        set_mesh_visible_ok s2 (g.axes_entities_uids 2) vis (hm2 _ (hm1 _ (hmesh 2)))
      have hstep : set_all_gizmo_3d_visibility_step vis sc c = some s3 := by
        simp [set_all_gizmo_3d_visibility_step, hg, hs1, hs2, hs3]
      obtain ⟨sc', hsc', ht', he', hc', hcg', hgz', hmat', hm'⟩ := ih s3 (by
        intro c2 hc2mem
        obtain ⟨g2, hg2, hmesh2⟩ := hl c2 (List.mem_cons_of_mem c hc2mem)
        refine ⟨g2, ?_, fun i => hm3 _ (hm2 _ (hm1 _ (hmesh2 i)))⟩
        rw [hcg3, hcg2, hcg1, hgz3, hgz2, hgz1]
        exact hg2)
      refine ⟨sc', ?_, ?_, ?_, ?_, ?_, ?_, ?_, ?_⟩
      · rw [List.foldlM_cons, hstep]
        exact hsc'
      · rw [ht', ht3, ht2, ht1]
      · rw [he', he3, he2, he1]
      · rw [hc', hc3, hc2, hc1]
      · rw [hcg', hcg3, hcg2, hcg1]
      · rw [hgz', hgz3, hgz2, hgz1]
      · rw [hmat', hmat3, hmat2, hmat1]
      · intro u hu
        exact hm' _ (hm3 _ (hm2 _ (hm1 _ hu)))

/-- The camera loop of `set_gizmo_to_selected_entity` succeeds when every rig
transform exists, and touches only the transform pool. -/
theorem set_gizmo_fold_ok (sel : Transform3D) :
    ∀ (l : List (UID × CameraComp)) (sc : Scene),
      (∀ c ∈ l, (sc.transforms (sc.camera2gizmo c.1)).isSome) →
      ∃ sc', l.foldlM (set_gizmo_to_selected_entity_step (some sel)) sc = some sc' ∧
        sc'.entities = sc.entities ∧
        sc'.cameras = sc.cameras ∧
        sc'.camera2gizmo = sc.camera2gizmo ∧
        sc'.gizmos = sc.gizmos ∧
        sc'.materials = sc.materials ∧
        sc'.meshes = sc.meshes ∧
        (∀ u, (sc.transforms u).isSome → (sc'.transforms u).isSome) := by
  intro l
  induction l with
  | nil =>
      intro sc _
      exact ⟨sc, rfl, rfl, rfl, rfl, rfl, rfl, rfl, fun _ h => h⟩
  | cons c cs ih =>
      intro sc hl
      obtain ⟨gt, hgt⟩ := Option.isSome_iff_exists.mp (hl c (List.mem_cons_self c cs))
      have hstep : set_gizmo_to_selected_entity_step (some sel) sc c =
          some (sc.setTransform (sc.camera2gizmo c.1)
            { gt with
              position := sel.position
              rotation := sel.rotation
              input_values_updated := true }) := by
        simp [set_gizmo_to_selected_entity_step, hgt]
      set s1 := sc.setTransform (sc.camera2gizmo c.1)
        { gt with
          position := sel.position
          rotation := sel.rotation
          input_values_updated := true } with hs1def
      have hpres : ∀ u, (sc.transforms u).isSome → (s1.transforms u).isSome := by
        intro u hu
        simp only [hs1def, Scene.setTransform]
        by_cases huid : u = sc.camera2gizmo c.1 <;> simp [huid, hu]
      obtain ⟨sc', hsc', he', hc', hcg', hgz', hmat', hm', ht'⟩ := ih s1 (by
        intro c2 hc2mem
        exact hpres _ (hl c2 (List.mem_cons_of_mem c hc2mem)))
      refine ⟨sc', ?_, he', hc', hcg', hgz', hmat', hm', ?_⟩
      · rw [List.foldlM_cons, hstep]
        exact hsc'
      · intro u hu
        exact ht' _ (hpres _ hu)

/-- `get_projected_point_on_axis` succeeds when the drag snapshot, the
selected entity record and its parent transform are present. -/
theorem get_projected_ok (sys : Gizmo3DSystem) (scene : Scene) (o d : Vec3)
    (uid : UID) (e : EntityRec)
    (hsel : sys.selected_entity_uid = some uid)
    (howm : sys.original_active_world_matrix.isSome)
    (hent : scene.entities uid = some e)
    (hpar : ∀ q, e.parent_uid = some q → (scene.transforms q).isSome) :
    ∃ v, get_projected_point_on_axis sys scene o d = some v := by
  obtain ⟨owm, howm'⟩ := Option.isSome_iff_exists.mp howm
  unfold get_projected_point_on_axis
  rw [howm', hsel]
  simp only [Option.bind_eq_bind', Option.some_bind, hent]
  cases hq : e.parent_uid with
  | none => exact ⟨_, rfl⟩
  | some q =>
      obtain ⟨tq, htq⟩ := Option.isSome_iff_exists.mp (hpar q hq)
      simp only [Option.bind_eq_bind', Option.some_bind, htq]
      exact ⟨_, rfl⟩

/-- The axis hit test always produces an index when the focused camera's rig
transform is present. -/
theorem mouse_ray_check_ok (sys : Gizmo3DSystem) (scene : Scene) (o d : Vec3)
    (cu : UID)
    (hc : sys.focused_camera_uid = some cu)
    (hg : (scene.transforms (scene.camera2gizmo cu)).isSome) :
    ∃ idx : Int, mouse_ray_check_axes_collision sys scene o d = some idx := by
  obtain ⟨gt, hgt⟩ := Option.isSome_iff_exists.mp hg
  unfold mouse_ray_check_axes_collision
  rw [hc]
  simp only [Option.bind_eq_bind', Option.some_bind, hgt]
  cases (List.finRange 3).filter (fun i => decide (-1 <
      intersect_ray_capsules o d (fun _ => gt.position) sys.gizmo_transformed_axes
        (1/10 * gt.scale.x) i)) with
  | nil => exact ⟨-1, rfl⟩
  | cons v vs => exact ⟨_, rfl⟩

/-- The state-handler dispatch succeeds from each of the four reachable
states (given the presence facts the handlers dereference) and lands back in
a reachable state. -/
theorem dispatch_ok (sys : Gizmo3DSystem) (scene : Scene) (o d : Vec3) (mp : Bool)
    (hcore : inCoreStates sys.gizmo_state)
    (hss : ∃ uid t e, sys.selected_entity_uid = some uid ∧
      scene.transforms uid = some t ∧ scene.entities uid = some e ∧
      ∀ q, e.parent_uid = some q → (scene.transforms q).isSome)
    (hfoc : ∃ cu, sys.focused_camera_uid = some cu ∧
      (scene.transforms (scene.camera2gizmo cu)).isSome)
    (hdrag : sys.gizmo_state = .translatingOnAxis →
      sys.original_active_local_position.isSome ∧
      sys.original_active_world_matrix.isSome) :
    ∃ sys' scene', dispatch_state_handler sys scene o d mp = some (sys', scene') ∧
      inCoreStates sys'.gizmo_state := by
  obtain ⟨uid, t, e, hsel, ht, hent, hpar⟩ := hss
  obtain ⟨cu, hcu, hrig⟩ := hfoc
  rcases hcore with hst | hst | hst | hst
  · obtain ⟨idx, hidx⟩ := mouse_ray_check_ok sys scene o d cu hcu hrig
    unfold dispatch_state_handler
    rw [hst]
    unfold handle_state_not_hovering
    rw [hidx]
    simp only [Option.bind_eq_bind', Option.some_bind]
    by_cases hi : idx = -1
    · rw [if_pos hi]
      exact ⟨_, _, rfl, Or.inl hst⟩
    · rw [if_neg hi]
      exact ⟨_, _, rfl, Or.inr (Or.inl rfl)⟩
  · unfold dispatch_state_handler
    rw [hst]
    unfold handle_state_hovering_axis
    by_cases hen : sys.gizmo_selection_enabled
    · simp only [hen, Bool.not_true, Bool.false_eq_true, reduceIte]
      by_cases hmp : mp
      · subst hmp
        simp only [reduceIte]
        rw [hsel]
        simp only [Option.bind_eq_bind', Option.some_bind, ht]
        obtain ⟨v, hv⟩ := get_projected_ok
          { sys with
            gizmo_state := GizmoState.translatingOnAxis
            original_active_local_position := some t.position
            original_active_world_matrix := some t.world_matrix
            original_active_local_matrix := some t.local_matrix }
          scene o d uid e hsel (by rfl) hent hpar
        simp only [hen, hsel] at hv
        rw [hv]
        simp only [Option.some_bind]
        exact ⟨_, _, rfl, Or.inr (Or.inr (Or.inl rfl))⟩
      · have hmp' : mp = false := by
          cases mp
          · rfl
          · exact absurd rfl hmp
        subst hmp'
        simp only [Bool.false_eq_true, reduceIte]
        obtain ⟨idx, hidx⟩ := mouse_ray_check_ok sys scene o d cu hcu hrig
        rw [hidx]
        simp only [Option.bind_eq_bind', Option.some_bind]
        by_cases hi : idx = -1
        · rw [if_pos hi]
          exact ⟨_, _, rfl, Or.inl rfl⟩
        · rw [if_neg hi]
          exact ⟨_, _, rfl, Or.inr (Or.inl hst)⟩
    · simp only [Bool.not_eq_true] at hen
      simp only [hen, Bool.not_false, if_true]
      exact ⟨_, _, rfl, Or.inr (Or.inl hst)⟩
  · obtain ⟨horigs, howm⟩ := hdrag hst
    obtain ⟨orig, horig⟩ := Option.isSome_iff_exists.mp horigs
    obtain ⟨v, hv⟩ := get_projected_ok sys scene o d uid e hsel howm hent hpar
    unfold dispatch_state_handler
    rw [hst]
    rw [handle_state_translate_on_axis_spec sys scene o d mp uid t orig v hsel ht horig hv]
    exact ⟨_, _, rfl, Or.inr (Or.inr (Or.inl hst))⟩
  · unfold dispatch_state_handler
    rw [hst]
    exact ⟨_, _, rfl, Or.inr (Or.inr (Or.inr hst))⟩

/-- `screen2ray` always succeeds (given camera and rig transforms), leaves
the state-machine fields untouched, and resolves only registered cameras. -/
theorem screen2ray_ok (normalize3 : Vec3 → Vec3) (sys : Gizmo3DSystem) (scene : Scene)
    (p : ℚ × ℚ)
    (hcams : ∀ c ∈ scene.cameras, (scene.transforms (scene.camera2gizmo c.1)).isSome ∧
      (scene.transforms c.1).isSome) :
    ∃ sys' res, screen2ray normalize3 sys scene p = some (sys', res) ∧
      sys'.selected_entity_uid = sys.selected_entity_uid ∧
      sys'.gizmo_state = sys.gizmo_state ∧
      sys'.original_active_local_position = sys.original_active_local_position ∧
      sys'.original_active_world_matrix = sys.original_active_world_matrix ∧
      (∀ cu, res.2 = some cu → ∃ c, (cu, c) ∈ scene.cameras ∧
        (scene.transforms (scene.camera2gizmo cu)).isSome) := by
  cases hga : get_active_camera scene p with
  | none =>
      refine ⟨sys, (none, none), ?_, rfl, rfl, rfl, rfl, ?_⟩
      · simp [screen2ray, hga]
      · intro cu h
        cases h
  | some cc =>
      obtain ⟨cu, cam⟩ := cc
      obtain ⟨hmem, hins⟩ := get_active_camera_mem scene p cu cam hga
      obtain ⟨hrig, hcam⟩ := hcams (cu, cam) hmem
      obtain ⟨gt, hgt⟩ := Option.isSome_iff_exists.mp hrig
      obtain ⟨ct, hct⟩ := Option.isSome_iff_exists.mp hcam
      have hvp : cam.viewport_pixels.isSome := by
        unfold is_inside_viewport at hins
        cases hv : cam.viewport_pixels with
        | none =>
            rw [hv] at hins
            simp at hins
        | some vp => simp
      obtain ⟨vp, hvp'⟩ := Option.isSome_iff_exists.mp hvp
      simp only [screen2ray, hga]
      simp only [get_mouse_ray_point_on_axis, hgt, hct, hvp',
        Option.bind_eq_bind', Option.some_bind]
      cases hconv : screen_gl_position_pixels2viewport_position
          sys.mouse_screen_position vp with
      | none =>
          exact ⟨_, _, rfl, rfl, rfl, rfl, rfl, fun cu' h => by
            obtain rfl : cu = cu' := by simpa using h
            exact ⟨cam, hmem, hrig⟩⟩
      | some nd =>
          exact ⟨_, _, rfl, rfl, rfl, rfl, rfl, fun cu' h => by
            obtain rfl : cu = cu' := by simpa using h
            exact ⟨cam, hmem, hrig⟩⟩

/-- Claim C4 amended: the states reachable from the initial `NOT_HOVERING`
state are only the four core states (never `HOVERING_PLANE` or
`ROTATE_AROUND_AXIS`), and from those four states every one of the four event
kinds has a defined, non-raising transition that stays within the four
states — provided the entities the handlers dereference are present (§7's
missing-entity caveat). -/
theorem state_machine_total_on_reachable
    (normalize3 : Vec3 → Vec3) (sys : Gizmo3DSystem) (scene : Scene) (ev : GizmoEvent)
    (hcore : inCoreStates sys.gizmo_state)
    (hwf : SceneWF sys scene)
    (hev : EvOK ev scene) :
    ∃ sys' scene', process_event normalize3 sys scene ev = some (sys', scene') ∧
      inCoreStates sys'.gizmo_state := by
  cases ev with
  | mouseRelease button =>
      unfold process_event handle_event_mouse_button_release
      dsimp only
      by_cases hb : button ≠ MOUSE_LEFT
      · rw [if_pos hb]
        exact ⟨_, _, rfl, hcore⟩
      · rw [if_neg hb]
        exact ⟨_, _, rfl, Or.inl rfl⟩
  | selectionChanged uid? =>
      cases uid? with
      | none =>
          unfold process_event handle_event_entity_deselected
          dsimp only
          obtain ⟨s1, hs1, ht1, he1, hc1, hcg1, hgz1, hmat1, hm1⟩ :=
            visibility_fold_ok false scene.cameras scene hwf.rig_gizmo
          rw [show set_all_gizmo_3d_visibility scene false =
            scene.cameras.foldlM (set_all_gizmo_3d_visibility_step false) scene from rfl, hs1]
          exact ⟨_, _, rfl, hcore⟩
      | some uid =>
          obtain ⟨selT, hselT⟩ := Option.isSome_iff_exists.mp hev
          unfold process_event handle_event_entity_selected
          dsimp only
          obtain ⟨s1, hs1, ht1, he1, hc1, hcg1, hgz1, hmat1, hm1⟩ :=
            visibility_fold_ok true scene.cameras scene hwf.rig_gizmo
          rw [show set_all_gizmo_3d_visibility scene true =
            scene.cameras.foldlM (set_all_gizmo_3d_visibility_step true) scene from rfl, hs1]
          simp only [Option.bind_eq_bind', Option.some_bind]
          have hsel1 : ({ sys with selected_entity_uid := some uid } :
              Gizmo3DSystem).selected_entity_uid.bind s1.transforms = some selT := by
            simp only [Option.some_bind]
            rw [ht1]
            exact hselT
          rw [show set_gizmo_to_selected_entity { sys with selected_entity_uid := some uid } s1 =
            s1.cameras.foldlM (set_gizmo_to_selected_entity_step
              (({ sys with selected_entity_uid := some uid } :
                Gizmo3DSystem).selected_entity_uid.bind s1.transforms)) s1 from rfl, hsel1]
          obtain ⟨s2, hs2, -, -, -, -, -, -, -⟩ := set_gizmo_fold_ok selT s1.cameras s1 (by
            intro c hcmem
            rw [hcg1, ht1]
            exact hwf.rig_transform c (by rw [← hc1]; exact hcmem))
          rw [hs2]
          simp only [Option.some_bind]
          by_cases hst : sys.gizmo_state = GizmoState.notHovering
          · rw [if_pos (show ({ sys with selected_entity_uid := some uid } :
                Gizmo3DSystem).gizmo_state = GizmoState.notHovering from hst)]
            exact ⟨_, _, rfl, Or.inr (Or.inr (Or.inr rfl))⟩
          · rw [if_neg (show ¬ ({ sys with selected_entity_uid := some uid } :
                Gizmo3DSystem).gizmo_state = GizmoState.notHovering from hst)]
            exact ⟨_, _, rfl, hcore⟩
  | mouseMove pos =>
      unfold process_event handle_event_mouse_move
      dsimp only
      cases hsel : sys.selected_entity_uid with
      | none =>
          simp only [hsel]
          exact ⟨_, _, rfl, hcore⟩
      | some uid =>
          simp only [hsel]
          obtain ⟨sys1, res, heq, hp1, hp2, hp3, hp4, hres⟩ :=
            screen2ray_ok normalize3 { sys with mouse_screen_position := pos } scene pos
              (fun c hc => ⟨hwf.rig_transform c hc, hwf.camera_transform c hc⟩)
          simp only [hsel] at heq hp1
          dsimp only at hp1 hp2 hp3 hp4
          rw [heq]
          simp only [Option.bind_eq_bind', Option.some_bind]
          cases hres2 : res.2 with
          | none =>
              refine ⟨_, _, rfl, ?_⟩
              show inCoreStates sys1.gizmo_state
              rw [hp2]
              exact hcore
          | some cu =>
              dsimp only
              cases hres1 : res.1 with
              | none =>
                  refine ⟨_, _, rfl, ?_⟩
                  show inCoreStates sys1.gizmo_state
                  rw [hp2]
                  exact hcore
              | some ray =>
                  obtain ⟨o, d⟩ := ray
                  obtain ⟨t, ht⟩ := Option.isSome_iff_exists.mp
                    (hwf.selected_transform uid hsel)
                  obtain ⟨e, hent, hpar⟩ := hwf.selected_entity uid hsel
                  obtain ⟨c, hcmem, hcrig⟩ := hres cu hres2
                  obtain ⟨sys2, scene2, hd, hdcore⟩ := dispatch_ok
                    { sys1 with focused_camera_uid := some cu } scene o d false
                    (by
                      show inCoreStates sys1.gizmo_state
                      rw [hp2]
                      exact hcore)
                    ⟨uid, t, e, hp1, ht, hent, hpar⟩
                    ⟨cu, rfl, hcrig⟩
                    (by
                      intro hdragst
                      have hst : sys.gizmo_state = GizmoState.translatingOnAxis := by
                        rw [← hp2]
                        exact hdragst
                      obtain ⟨ha, hb⟩ := hwf.drag_snapshot hst
                      constructor
                      · show sys1.original_active_local_position.isSome = true
                        rw [hp3]
                        exact ha
                      · show sys1.original_active_world_matrix.isSome = true
                        rw [hp4]
                        exact hb)
                  dsimp only
                  rw [hd]
                  exact ⟨_, _, rfl, hdcore⟩
  | mousePress button pos =>
      unfold process_event handle_event_mouse_button_press
      dsimp only
      by_cases hb : button ≠ MOUSE_LEFT
      · rw [if_pos hb]
        exact ⟨_, _, rfl, hcore⟩
      · rw [if_neg hb]
        cases hsel : sys.selected_entity_uid with
        | none =>
            simp only [hsel]
            exact ⟨_, _, rfl, hcore⟩
        | some uid =>
            simp only [hsel]
            obtain ⟨sys1, res, heq, hp1, hp2, hp3, hp4, hres⟩ :=
              screen2ray_ok normalize3 sys scene pos
                (fun c hc => ⟨hwf.rig_transform c hc, hwf.camera_transform c hc⟩)
            rw [heq]
            simp only [Option.bind_eq_bind', Option.some_bind]
            cases hres2 : res.2 with
            | none =>
                refine ⟨_, _, rfl, ?_⟩
                show inCoreStates sys1.gizmo_state
                rw [hp2]
                exact hcore
            | some cu =>
                dsimp only
                cases hres1 : res.1 with
                | none =>
                    refine ⟨_, _, rfl, ?_⟩
                    show inCoreStates sys1.gizmo_state
                    rw [hp2]
                    exact hcore
                | some ray =>
                    obtain ⟨o, d⟩ := ray
                    obtain ⟨t, ht⟩ := Option.isSome_iff_exists.mp
                      (hwf.selected_transform uid hsel)
                    obtain ⟨e, hent, hpar⟩ := hwf.selected_entity uid hsel
                    obtain ⟨c, hcmem, hcrig⟩ := hres cu hres2
                    obtain ⟨sys2, scene2, hd, hdcore⟩ := dispatch_ok
                      { sys1 with focused_camera_uid := some cu } scene o d true
                      (by
                        show inCoreStates sys1.gizmo_state
                        rw [hp2]
                        exact hcore)
                      ⟨uid, t, e, by
                        show sys1.selected_entity_uid = some uid
                        rw [hp1]
                        exact hsel, ht, hent, hpar⟩
                      ⟨cu, rfl, hcrig⟩
                      (by
                        intro hdragst
                        have hst : sys.gizmo_state = GizmoState.translatingOnAxis := by
                          rw [← hp2]
                          exact hdragst
                        obtain ⟨ha, hb⟩ := hwf.drag_snapshot hst
                        constructor
                        · show sys1.original_active_local_position.isSome = true
                          rw [hp3]
                          exact ha
                        · show sys1.original_active_world_matrix.isSome = true
                          rw [hp4]
                          exact hb)
                    dsimp only
                    rw [hd]
                    exact ⟨_, _, rfl, hdcore⟩

/-- Claim C4 counterexample: with the gizmo stuck in `ROTATE_AROUND_AXIS`, a
mouse-move that reaches the dispatch table raises (`handle_state_rotate_axis`
has the signature `(screen_gl_pixels, entering_state)`, so the keyword call
`(ray_origin=…, ray_direction=…, mouse_press=…)` is a `TypeError`) — the
sixth listed state does not have a defined transition. -/
theorem rotate_state_mouse_move_raises :
    process_event id sysRot sceneCam (.mouseMove (5, 5)) = none := by
  norm_num [process_event, handle_event_mouse_move, screen2ray, get_active_camera,
    get_mouse_ray_point_on_axis, screen_gl_position_pixels2viewport_position,
    screen_pos2world_ray, dispatch_state_handler, sysRot, sysFix, sceneCam, camFix,
    tIdentity, is_inside_viewport, Mat4.identity, Mat4.mulVectors3, Mat4.mulVector3,
    Mat4.mulVec4, Mat4.translation, GIZMO_3D_AXES, List.foldl, decide_eq_true_eq,
    Option.bind_eq_bind', Option.some_bind]

/-- Claim C4 amended witness: a concrete idle state and scene where a
mouse-release event is processed successfully. -/
theorem state_machine_total_on_reachable_witness :
    ∃ sys' scene',
      process_event id sysNotHover sceneDragW (.mouseRelease 0) = some (sys', scene') ∧
      inCoreStates sys'.gizmo_state := by
  refine state_machine_total_on_reachable id sysNotHover sceneDragW _ (Or.inl rfl) ?_ trivial
  refine ⟨?_, ?_, ?_, ?_, ?_, ?_⟩
  · intro uid h
    obtain rfl : (1 : UID) = uid := by simpa [sysNotHover, sysFix] using h
    simp [sceneDragW]
  · intro uid h
    obtain rfl : (1 : UID) = uid := by simpa [sysNotHover, sysFix] using h
    refine ⟨⟨none⟩, by simp [sceneDragW], fun p hp => by cases hp⟩
  · intro c hc
    simp [sceneDragW] at hc
  · intro c hc
    simp [sceneDragW] at hc
  · intro c hc
    simp [sceneDragW] at hc
  · intro h
    simp [sysNotHover, sysFix] at h
